import Mathlib

set_option linter.dupNamespace false

/-!
Verification development for the Microsoft Band cloud client
(`band/cloud/cloud.go`).

The Go code is shallowly embedded: JSON documents are modelled as trees
(`Json`), Go structs as Lean structures carrying their JSON field tags in
the decoders, `encoding/json` struct decoding as best-effort field-by-field
decoding that keeps the first error and continues (as Go's `Unmarshal`
does), the `net/url` parse/serialize pipeline used by `NewRequest` as a
character-level model of Go's escaping rules, and `Client.Do` plus the six
resource accessors as pure functions over an explicit transport function,
tracking how often the response body is closed.

Byte-level concerns are modelled at `Char` level (faithful for ASCII data,
which is all the client and the theorems exercise), and JSON numbers are
modelled as unbounded integers (the client's integer fields; Go's int64
overflow check is not representable and not exercised by any claim).
-/

namespace MicrosoftBand

/-- JSON value trees, the meaning of the byte streams that
`encoding/json` encodes and decodes.  Object field lists keep the order
in which keys appear in the document; a duplicated key simply occurs
twice (later occurrences are decoded later, hence win, as in Go). -/
inductive Json where
  | null
  | bool (b : Bool)
  | num (n : Int)
  | str (s : String)
  | arr (elems : List Json)
  | obj (fields : List (String × Json))

/-- Result of decoding a JSON document into a Go value: the (possibly
partially) populated value together with the first error encountered, if
any.  Go's `json.Unmarshal` populates what it can and reports the first
error (`d.saveError`). -/
structure DecRes (α : Type) where
  value : α
  err : Option String

/-- Keep the first error (Go's `d.saveError` semantics). -/
def saveErr (e : Option String) (msg : String) : Option String :=
  match e with
  | some m => some m
  | none => some msg

/-- Merge a later (optional) error into an earlier one, keeping the first. -/
def mergeErr (e e2 : Option String) : Option String :=
  match e with
  | some m => some m
  | none => e2

/-- Outcome of decoding one JSON value into one struct field:
set the field, leave it unchanged without error (Go decodes JSON `null`
into most non-pointer types as a no-op), or fail with a type error. -/
inductive FieldDec (β : Type) where
  | set (b : β)
  | skip
  | fail (msg : String)

/-- Go: decode a JSON value into a `string` field. -/
def decStr (v : Json) : FieldDec String :=
  match v with
  | .str s => .set s
  | .null => .skip
  | _ => .fail "json: cannot unmarshal value into Go value of type string"

/-- Go: decode a JSON value into an `int` field. -/
def decInt (v : Json) : FieldDec Int :=
  match v with
  | .num n => .set n
  | .null => .skip
  | _ => .fail "json: cannot unmarshal value into Go value of type int"

/-- Go: decode a JSON value into a `bool` field. -/
def decBool (v : Json) : FieldDec Bool :=
  match v with
  | .bool b => .set b
  | .null => .skip
  | _ => .fail "json: cannot unmarshal value into Go value of type bool"

def isDigitCh (c : Char) : Bool :=
  decide ('0' ≤ c) && decide (c ≤ '9')

/-- Tail of an RFC 3339 timestamp after the seconds: optional fraction,
then `Z` or a signed `hh:mm` offset.  Simplified model of the format
check done by `time.Time.UnmarshalJSON`; no claim depends on exactly
which strings are accepted, only that accepted strings round-trip. -/
def rfc3339Zone (cs : List Char) : Bool :=
  match cs with
  | ['Z'] => true
  | ['+', h1, h2, ':', m1, m2] => [h1, h2, m1, m2].all isDigitCh
  | ['-', h1, h2, ':', m1, m2] => [h1, h2, m1, m2].all isDigitCh
  | _ => false

def rfc3339Tail (cs : List Char) : Bool :=
  match cs with
  | '.' :: rest =>
    let frac := rest.takeWhile isDigitCh
    !frac.isEmpty && rfc3339Zone (rest.dropWhile isDigitCh)
  | _ => rfc3339Zone cs

/-- Simplified model of `time.Parse(time.RFC3339, s)` succeeding:
`YYYY-MM-DDTHH:MM:SS` followed by an optional fraction and a zone. -/
def isRFC3339 (s : String) : Bool :=
  match s.toList with
  | y1 :: y2 :: y3 :: y4 :: '-' :: m1 :: m2 :: '-' :: d1 :: d2 :: 'T' ::
      h1 :: h2 :: ':' :: n1 :: n2 :: ':' :: s1 :: s2 :: rest =>
    [y1, y2, y3, y4, m1, m2, d1, d2, h1, h2, n1, n2, s1, s2].all isDigitCh
      && rfc3339Tail rest
  | _ => false

/-- A `time.Time` as it appears on the wire: its RFC 3339 rendering.
`json.Marshal` always emits a valid RFC 3339 string for a `time.Time`,
and `UnmarshalJSON` accepts exactly such strings, so the wire-level model
carries the validity invariant. -/
def Timestamp : Type := { s : String // isRFC3339 s = true }

instance : DecidableEq Timestamp := fun a b =>
  if h : a.val = b.val then .isTrue (Subtype.ext h)
  else .isFalse (fun hh => h (congrArg Subtype.val hh))

/-- Go: decode a JSON value into a `*time.Time` field: `null` sets the
pointer to nil, a string must parse as RFC 3339, anything else is a type
error. -/
def decTimePtr (v : Json) : FieldDec (Option Timestamp) :=
  match v with
  | .null => .set none
  | .str s =>
    if h : isRFC3339 s = true then .set (some ⟨s, h⟩)
    else .fail "parsing time: cannot parse value as RFC3339"
  | _ => .fail "json: cannot unmarshal value into Go value of type time.Time"

/-- Fold one `FieldDec` outcome into the running (value, first-error)
accumulator. -/
def applyField (acc : α) (e : Option String) (upd : β → α) (d : FieldDec β) :
    α × Option String :=
  match d with
  | .set b => (upd b, e)
  | .skip => (acc, e)
  | .fail msg => (acc, saveErr e msg)

/-- Fold a nested-struct decode result into the accumulator: the
(possibly partially) decoded sub-value is always stored, and its error is
kept if it is the first. -/
def applySub (e : Option String) (upd : γ → α) (r : DecRes γ) :
    α × Option String :=
  (upd r.value, mergeErr e r.err)

/-- Go: decode a JSON array element list into a slice of `γ`, decoding
each element into a fresh zero value, keeping partially decoded elements
and the first error (Go's array decoding continues after a saved
error). -/
def decArrInto (decInto : Json → γ → DecRes γ) (zero : γ) :
    List Json → List γ × Option String
  | [] => ([], none)
  | x :: xs =>
    let r := decInto x zero
    let (ys, e) := decArrInto decInto zero xs
    (r.value :: ys, mergeErr r.err e)

/-- Go: decode a JSON value into a slice field: `null` sets the slice to
nil, an array decodes element-wise, anything else is a type error. -/
def applyList (acc : α) (e : Option String) (upd : List γ → α)
    (decInto : Json → γ → DecRes γ) (zero : γ) (v : Json) :
    α × Option String :=
  match v with
  | .null => (upd [], e)
  | .arr xs =>
    let (ys, e2) := decArrInto decInto zero xs
    (upd ys, mergeErr e e2)
  | _ => (acc, saveErr e "json: cannot unmarshal value into Go slice")

/-- Go struct decoding driver: iterate over the JSON object's fields in
document order, applying the per-type `step` (which matches the struct's
effective JSON tag table); keys matching no field are ignored.  A JSON
`null` at struct position is a no-op, any other non-object is a type
error leaving the destination untouched. -/
def foldFields (step : String → Json → α → Option String → α × Option String) :
    List (String × Json) → α → Option String → α × Option String
  | [], acc, e => (acc, e)
  | (k, v) :: rest, acc, e =>
    let (a2, e2) := step k v acc e
    foldFields step rest a2 e2

def decodeWith (step : String → Json → α → Option String → α × Option String)
    (typeName : String) (j : Json) (dest : α) : DecRes α :=
  match j with
  | .obj fields =>
    let (a, e) := foldFields step fields dest none
    ⟨a, e⟩
  | .null => ⟨dest, none⟩
  | _ => ⟨dest, some ("json: cannot unmarshal value into " ++ typeName)⟩

/-! ## The data model of `cloud.go`, with each struct's JSON tags
reflected in its decoder. -/

structure CaloriesBurnedSummary where
  Period : String := ""
  TotalCalories : Int := 0
deriving DecidableEq

def CaloriesBurnedSummary.zero : CaloriesBurnedSummary := {}

def decodeCaloriesBurnedSummaryStep (k : String) (v : Json)
    (acc : CaloriesBurnedSummary) (e : Option String) :
    CaloriesBurnedSummary × Option String :=
  if k = "period" then applyField acc e (fun x => { acc with Period := x }) (decStr v)
  else if k = "totalCalories" then applyField acc e (fun x => { acc with TotalCalories := x }) (decInt v)
  else (acc, e)

def decodeCaloriesBurnedSummaryInto (j : Json) (dest : CaloriesBurnedSummary) :
    DecRes CaloriesBurnedSummary :=
  decodeWith decodeCaloriesBurnedSummaryStep "cloud.CaloriesBurnedSummary" j dest

structure HeartRateSummary where
  Period : String := ""
  AverageHeartRate : Int := 0
  PeakHeartRate : Int := 0
  LowestHeartRate : Int := 0
deriving DecidableEq

def HeartRateSummary.zero : HeartRateSummary := {}

def decodeHeartRateSummaryStep (k : String) (v : Json)
    (acc : HeartRateSummary) (e : Option String) :
    HeartRateSummary × Option String :=
  if k = "period" then applyField acc e (fun x => { acc with Period := x }) (decStr v)
  else if k = "averageHeartRate" then applyField acc e (fun x => { acc with AverageHeartRate := x }) (decInt v)
  else if k = "peakHeartRate" then applyField acc e (fun x => { acc with PeakHeartRate := x }) (decInt v)
  else if k = "lowestHeartRate" then applyField acc e (fun x => { acc with LowestHeartRate := x }) (decInt v)
  else (acc, e)

def decodeHeartRateSummaryInto (j : Json) (dest : HeartRateSummary) :
    DecRes HeartRateSummary :=
  decodeWith decodeHeartRateSummaryStep "cloud.HeartRateSummary" j dest

structure DistanceSummary where
  Period : String := ""
  TotalDistance : Int := 0
  TotalDistanceOnFoot : Int := 0
  ActualDistance : Int := 0
  ElevationGain : Int := 0
  ElevationLoss : Int := 0
  MaxElevation : Int := 0
  MinElevation : Int := 0
  WaypointDistance : Int := 0
  Speed : Int := 0
  Pace : Int := 0
  OverallPace : Int := 0
deriving DecidableEq

def DistanceSummary.zero : DistanceSummary := {}

def decodeDistanceSummaryStep (k : String) (v : Json)
    (acc : DistanceSummary) (e : Option String) :
    DistanceSummary × Option String :=
  if k = "period" then applyField acc e (fun x => { acc with Period := x }) (decStr v)
  else if k = "totalDistance" then applyField acc e (fun x => { acc with TotalDistance := x }) (decInt v)
  else if k = "totalDistanceOnFoot" then applyField acc e (fun x => { acc with TotalDistanceOnFoot := x }) (decInt v)
  else if k = "actualDistance" then applyField acc e (fun x => { acc with ActualDistance := x }) (decInt v)
  else if k = "elevationGain" then applyField acc e (fun x => { acc with ElevationGain := x }) (decInt v)
  else if k = "elevationLoss" then applyField acc e (fun x => { acc with ElevationLoss := x }) (decInt v)
  else if k = "maxElevation" then applyField acc e (fun x => { acc with MaxElevation := x }) (decInt v)
  else if k = "minElevation" then applyField acc e (fun x => { acc with MinElevation := x }) (decInt v)
  else if k = "waypointDistance" then applyField acc e (fun x => { acc with WaypointDistance := x }) (decInt v)
  else if k = "speed" then applyField acc e (fun x => { acc with Speed := x }) (decInt v)
  else if k = "pace" then applyField acc e (fun x => { acc with Pace := x }) (decInt v)
  else if k = "overallPace" then applyField acc e (fun x => { acc with OverallPace := x }) (decInt v)
  else (acc, e)

def decodeDistanceSummaryInto (j : Json) (dest : DistanceSummary) :
    DecRes DistanceSummary :=
  decodeWith decodeDistanceSummaryStep "cloud.DistanceSummary" j dest

structure Summary where
  ActiveHours : Int := 0
  UVExposure : String := ""
  CaloriesBurnedSummary : CaloriesBurnedSummary := {}
  HeartRateSummary : HeartRateSummary := {}
  DistanceSummary : DistanceSummary := {}
  FloorsClimbed : Int := 0
  StepsTaken : Int := 0
  Duration : String := ""
  Period : String := ""
  IsTransitDay : Bool := false
  ParentDay : Option Timestamp := none
  EndTime : Option Timestamp := none
  StartTime : Option Timestamp := none
  UserID : String := ""
deriving DecidableEq

def Summary.zero : Summary := {}

def decodeSummaryStep (k : String) (v : Json) (acc : Summary) (e : Option String) :
    Summary × Option String :=
  if k = "activeHours" then applyField acc e (fun x => { acc with ActiveHours := x }) (decInt v)
  else if k = "uvExposure" then applyField acc e (fun x => { acc with UVExposure := x }) (decStr v)
  else if k = "CaloriesBurnedSummary" then
    applySub e (fun x => { acc with CaloriesBurnedSummary := x })
      (decodeCaloriesBurnedSummaryInto v acc.CaloriesBurnedSummary)
  else if k = "HeartRateSummary" then
    applySub e (fun x => { acc with HeartRateSummary := x })
      (decodeHeartRateSummaryInto v acc.HeartRateSummary)
  else if k = "distanceSummary" then
    applySub e (fun x => { acc with DistanceSummary := x })
      (decodeDistanceSummaryInto v acc.DistanceSummary)
  else if k = "floorsClimbed" then applyField acc e (fun x => { acc with FloorsClimbed := x }) (decInt v)
  else if k = "stepsTaken" then applyField acc e (fun x => { acc with StepsTaken := x }) (decInt v)
  else if k = "duration" then applyField acc e (fun x => { acc with Duration := x }) (decStr v)
  else if k = "period" then applyField acc e (fun x => { acc with Period := x }) (decStr v)
  else if k = "isTransitDay" then applyField acc e (fun x => { acc with IsTransitDay := x }) (decBool v)
  else if k = "parentDay" then applyField acc e (fun x => { acc with ParentDay := x }) (decTimePtr v)
  else if k = "endTime" then applyField acc e (fun x => { acc with EndTime := x }) (decTimePtr v)
  else if k = "startTime" then applyField acc e (fun x => { acc with StartTime := x }) (decTimePtr v)
  else if k = "userId" then applyField acc e (fun x => { acc with UserID := x }) (decStr v)
  else (acc, e)

def decodeSummaryInto (j : Json) (dest : Summary) : DecRes Summary :=
  decodeWith decodeSummaryStep "cloud.Summary" j dest

structure Summaries where
  Summaries : List Summary := []
deriving DecidableEq

def Summaries.zero : MicrosoftBand.Summaries := {}

def decodeSummariesStep (k : String) (v : Json) (acc : MicrosoftBand.Summaries)
    (e : Option String) : MicrosoftBand.Summaries × Option String :=
  if k = "summaries" then
    applyList acc e (fun x => { acc with Summaries := x }) decodeSummaryInto Summary.zero v
  else (acc, e)

def decodeSummariesInto (j : Json) (dest : MicrosoftBand.Summaries) :
    DecRes MicrosoftBand.Summaries :=
  decodeWith decodeSummariesStep "cloud.Summaries" j dest

structure Profile where
  FirstName : String := ""
  MiddleName : String := ""
  LastName : String := ""
  Birthdate : Option Timestamp := none
  PostalCode : String := ""
  Gender : String := ""
  Height : Int := 0
  Weight : Int := 0
  PreferredLocale : String := ""
  LastUpdateTime : Option Timestamp := none
deriving DecidableEq

def Profile.zero : Profile := {}

/-- The `Profile` tag table: note the source tags `FirstName` with the
JSON key `firstString` (not `firstName`). -/
def decodeProfileStep (k : String) (v : Json) (acc : Profile) (e : Option String) :
    Profile × Option String :=
  if k = "firstString" then applyField acc e (fun x => { acc with FirstName := x }) (decStr v)
  else if k = "middleName" then applyField acc e (fun x => { acc with MiddleName := x }) (decStr v)
  else if k = "lastName" then applyField acc e (fun x => { acc with LastName := x }) (decStr v)
  else if k = "birthdate" then applyField acc e (fun x => { acc with Birthdate := x }) (decTimePtr v)
  else if k = "postalCode" then applyField acc e (fun x => { acc with PostalCode := x }) (decStr v)
  else if k = "gender" then applyField acc e (fun x => { acc with Gender := x }) (decStr v)
  else if k = "height" then applyField acc e (fun x => { acc with Height := x }) (decInt v)
  else if k = "weight" then applyField acc e (fun x => { acc with Weight := x }) (decInt v)
  else if k = "preferredLocale" then applyField acc e (fun x => { acc with PreferredLocale := x }) (decStr v)
  else if k = "lastUpdateTime" then applyField acc e (fun x => { acc with LastUpdateTime := x }) (decTimePtr v)
  else (acc, e)

def decodeProfileInto (j : Json) (dest : Profile) : DecRes Profile :=
  decodeWith decodeProfileStep "cloud.Profile" j dest

structure Device where
  ID : String := ""
  DisplayName : String := ""
  LastSuccessfulSync : Option Timestamp := none
  DeviceFamily : String := ""
  HardwareVersion : String := ""
  SoftwareVersion : String := ""
  ModelName : String := ""
  Manufacturer : String := ""
  DeviceStatus : String := ""
  CreatedDate : Option Timestamp := none
deriving DecidableEq

def Device.zero : Device := {}

def decodeDeviceStep (k : String) (v : Json) (acc : Device) (e : Option String) :
    Device × Option String :=
  if k = "id" then applyField acc e (fun x => { acc with ID := x }) (decStr v)
  else if k = "displayName" then applyField acc e (fun x => { acc with DisplayName := x }) (decStr v)
  else if k = "lastSuccessfulSync" then applyField acc e (fun x => { acc with LastSuccessfulSync := x }) (decTimePtr v)
  else if k = "deviceFamily" then applyField acc e (fun x => { acc with DeviceFamily := x }) (decStr v)
  else if k = "hardwareVersion" then applyField acc e (fun x => { acc with HardwareVersion := x }) (decStr v)
  else if k = "softwareVersion" then applyField acc e (fun x => { acc with SoftwareVersion := x }) (decStr v)
  else if k = "modelName" then applyField acc e (fun x => { acc with ModelName := x }) (decStr v)
  else if k = "manufacturer" then applyField acc e (fun x => { acc with Manufacturer := x }) (decStr v)
  else if k = "deviceStatus" then applyField acc e (fun x => { acc with DeviceStatus := x }) (decStr v)
  else if k = "createdDate" then applyField acc e (fun x => { acc with CreatedDate := x }) (decTimePtr v)
  else (acc, e)

def decodeDeviceInto (j : Json) (dest : Device) : DecRes Device :=
  decodeWith decodeDeviceStep "cloud.Device" j dest

structure DeviceProfiles where
  Devices : List Device := []
  ItemCount : Int := 0
deriving DecidableEq

def DeviceProfiles.zero : DeviceProfiles := {}

def decodeDeviceProfilesStep (k : String) (v : Json) (acc : DeviceProfiles)
    (e : Option String) : DeviceProfiles × Option String :=
  if k = "deviceProfiles" then
    applyList acc e (fun x => { acc with Devices := x }) decodeDeviceInto Device.zero v
  else if k = "itemCount" then applyField acc e (fun x => { acc with ItemCount := x }) (decInt v)
  else (acc, e)

def decodeDeviceProfilesInto (j : Json) (dest : DeviceProfiles) : DecRes DeviceProfiles :=
  decodeWith decodeDeviceProfilesStep "cloud.DeviceProfiles" j dest

structure HeartRateZones where
  UnderHealthyHeart : Int := 0
  UnderAerobic : Int := 0
  Aerobic : Int := 0
  Anaerobic : Int := 0
  FitnessZone : Int := 0
  HealthyHeart : Int := 0
  Redline : Int := 0
  OverRedline : Int := 0
deriving DecidableEq

def HeartRateZones.zero : HeartRateZones := {}

def decodeHeartRateZonesStep (k : String) (v : Json) (acc : HeartRateZones)
    (e : Option String) : HeartRateZones × Option String :=
  if k = "underHealthyHeart" then applyField acc e (fun x => { acc with UnderHealthyHeart := x }) (decInt v)
  else if k = "underAerobic" then applyField acc e (fun x => { acc with UnderAerobic := x }) (decInt v)
  else if k = "aerobic" then applyField acc e (fun x => { acc with Aerobic := x }) (decInt v)
  else if k = "anaerobic" then applyField acc e (fun x => { acc with Anaerobic := x }) (decInt v)
  else if k = "fitnessZone" then applyField acc e (fun x => { acc with FitnessZone := x }) (decInt v)
  else if k = "healthyHeart" then applyField acc e (fun x => { acc with HealthyHeart := x }) (decInt v)
  else if k = "redline" then applyField acc e (fun x => { acc with Redline := x }) (decInt v)
  else if k = "overRedline" then applyField acc e (fun x => { acc with OverRedline := x }) (decInt v)
  else (acc, e)

def decodeHeartRateZonesInto (j : Json) (dest : HeartRateZones) : DecRes HeartRateZones :=
  decodeWith decodeHeartRateZonesStep "cloud.HeartRateZones" j dest

structure PerformanceSummary where
  FinishHeartRate : Int := 0
  RecoveryHeartRateAt1Minute : Int := 0
  RecoveryHeartRateAt2Minutes : Int := 0
  HeartRateZones : HeartRateZones := {}
deriving DecidableEq

def PerformanceSummary.zero : PerformanceSummary := {}

def decodePerformanceSummaryStep (k : String) (v : Json) (acc : PerformanceSummary)
    (e : Option String) : PerformanceSummary × Option String :=
  if k = "finishHeartRate" then applyField acc e (fun x => { acc with FinishHeartRate := x }) (decInt v)
  else if k = "recoveryHeartRateAt1Minute" then applyField acc e (fun x => { acc with RecoveryHeartRateAt1Minute := x }) (decInt v)
  else if k = "recoveryHeartRateAt2Minutes" then applyField acc e (fun x => { acc with RecoveryHeartRateAt2Minutes := x }) (decInt v)
  else if k = "heartRateZones" then
    applySub e (fun x => { acc with HeartRateZones := x })
      (decodeHeartRateZonesInto v acc.HeartRateZones)
  else (acc, e)

def decodePerformanceSummaryInto (j : Json) (dest : PerformanceSummary) :
    DecRes PerformanceSummary :=
  decodeWith decodePerformanceSummaryStep "cloud.PerformanceSummary" j dest

structure Location where
  SpeedOverGround : Int := 0
  Latitude : Int := 0
  Longitude : Int := 0
  ElevationFromMeanSeaLevel : Int := 0
  EstimatedHorizontalError : Int := 0
  EstimatedVerticalError : Int := 0
deriving DecidableEq

def Location.zero : Location := {}

def decodeLocationStep (k : String) (v : Json) (acc : Location) (e : Option String) :
    Location × Option String :=
  if k = "speedOverGround" then applyField acc e (fun x => { acc with SpeedOverGround := x }) (decInt v)
  else if k = "latitude" then applyField acc e (fun x => { acc with Latitude := x }) (decInt v)
  else if k = "longitude" then applyField acc e (fun x => { acc with Longitude := x }) (decInt v)
  else if k = "elevationFromMeanSeaLevel" then applyField acc e (fun x => { acc with ElevationFromMeanSeaLevel := x }) (decInt v)
  else if k = "estimatedHorizontalError" then applyField acc e (fun x => { acc with EstimatedHorizontalError := x }) (decInt v)
  else if k = "estimatedVerticalError" then applyField acc e (fun x => { acc with EstimatedVerticalError := x }) (decInt v)
  else (acc, e)

def decodeLocationInto (j : Json) (dest : Location) : DecRes Location :=
  decodeWith decodeLocationStep "cloud.Location" j dest

structure MapPoint where
  SecondsSinceStart : Int := 0
  MapPointType : String := ""
  Ordinal : Int := 0
  ActualDistance : Int := 0
  TotalDistance : Int := 0
  HeartRate : Int := 0
  Pace : Int := 0
  ScaledPace : Int := 0
  Speed : Int := 0
  Location : Location := {}
  IsPaused : Bool := false
  IsResume : Bool := false
deriving DecidableEq

def MapPoint.zero : MapPoint := {}

def decodeMapPointStep (k : String) (v : Json) (acc : MapPoint) (e : Option String) :
    MapPoint × Option String :=
  if k = "secondsSinceStart" then applyField acc e (fun x => { acc with SecondsSinceStart := x }) (decInt v)
  else if k = "mapPointType" then applyField acc e (fun x => { acc with MapPointType := x }) (decStr v)
  else if k = "ordinal" then applyField acc e (fun x => { acc with Ordinal := x }) (decInt v)
  else if k = "actualDistance" then applyField acc e (fun x => { acc with ActualDistance := x }) (decInt v)
  else if k = "totalDistance" then applyField acc e (fun x => { acc with TotalDistance := x }) (decInt v)
  else if k = "heartRate" then applyField acc e (fun x => { acc with HeartRate := x }) (decInt v)
  else if k = "pace" then applyField acc e (fun x => { acc with Pace := x }) (decInt v)
  else if k = "scaledPace" then applyField acc e (fun x => { acc with ScaledPace := x }) (decInt v)
  else if k = "speed" then applyField acc e (fun x => { acc with Speed := x }) (decInt v)
  else if k = "location" then
    applySub e (fun x => { acc with Location := x }) (decodeLocationInto v acc.Location)
  else if k = "isPaused" then applyField acc e (fun x => { acc with IsPaused := x }) (decBool v)
  else if k = "isResume" then applyField acc e (fun x => { acc with IsResume := x }) (decBool v)
  else (acc, e)

def decodeMapPointInto (j : Json) (dest : MapPoint) : DecRes MapPoint :=
  decodeWith decodeMapPointStep "cloud.MapPoint" j dest

structure ActivitySegment where
  SleepTime : Int := 0
  DayID : Option Timestamp := none
  SleepType : String := ""
  SegmentID : Int := 0
  StartTime : Option Timestamp := none
  EndTime : Option Timestamp := none
  Duration : String := ""
  HeartRateSummary : HeartRateSummary := {}
  CaloriesBurnedSummary : CaloriesBurnedSummary := {}
  SegmentType : String := ""
  DistanceSummary : DistanceSummary := {}
  PausedDuration : String := ""
  HeartRateZones : HeartRateZones := {}
  SplitDistance : Int := 0
  CircuitOrdinal : Int := 0
  CircuitType : Int := 0
  HoleNumber : Int := 0
  StepCount : Int := 0
  DistanceWalked : Int := 0
deriving DecidableEq

def ActivitySegment.zero : ActivitySegment := {}

def decodeActivitySegmentStep (k : String) (v : Json) (acc : ActivitySegment)
    (e : Option String) : ActivitySegment × Option String :=
  if k = "sleepTime" then applyField acc e (fun x => { acc with SleepTime := x }) (decInt v)
  else if k = "dayId" then applyField acc e (fun x => { acc with DayID := x }) (decTimePtr v)
  else if k = "sleepType" then applyField acc e (fun x => { acc with SleepType := x }) (decStr v)
  else if k = "segmentId" then applyField acc e (fun x => { acc with SegmentID := x }) (decInt v)
  else if k = "startTime" then applyField acc e (fun x => { acc with StartTime := x }) (decTimePtr v)
  else if k = "endTime" then applyField acc e (fun x => { acc with EndTime := x }) (decTimePtr v)
  else if k = "duration" then applyField acc e (fun x => { acc with Duration := x }) (decStr v)
  else if k = "heartRateSummary" then
    applySub e (fun x => { acc with HeartRateSummary := x })
      (decodeHeartRateSummaryInto v acc.HeartRateSummary)
  else if k = "caloriesBurnedSummary" then
    applySub e (fun x => { acc with CaloriesBurnedSummary := x })
      (decodeCaloriesBurnedSummaryInto v acc.CaloriesBurnedSummary)
  else if k = "segmentType" then applyField acc e (fun x => { acc with SegmentType := x }) (decStr v)
  else if k = "distanceSummary" then
    applySub e (fun x => { acc with DistanceSummary := x })
      (decodeDistanceSummaryInto v acc.DistanceSummary)
  else if k = "pausedDuration" then applyField acc e (fun x => { acc with PausedDuration := x }) (decStr v)
  else if k = "heartRateZones" then
    applySub e (fun x => { acc with HeartRateZones := x })
      (decodeHeartRateZonesInto v acc.HeartRateZones)
  else if k = "splitDistance" then applyField acc e (fun x => { acc with SplitDistance := x }) (decInt v)
  else if k = "circuitOrdinal" then applyField acc e (fun x => { acc with CircuitOrdinal := x }) (decInt v)
  else if k = "circuitType" then applyField acc e (fun x => { acc with CircuitType := x }) (decInt v)
  else if k = "holeNumber" then applyField acc e (fun x => { acc with HoleNumber := x }) (decInt v)
  else if k = "stepCount" then applyField acc e (fun x => { acc with StepCount := x }) (decInt v)
  else if k = "distanceWalked" then applyField acc e (fun x => { acc with DistanceWalked := x }) (decInt v)
  else (acc, e)

def decodeActivitySegmentInto (j : Json) (dest : ActivitySegment) : DecRes ActivitySegment :=
  decodeWith decodeActivitySegmentStep "cloud.ActivitySegment" j dest

/-- The non-recursive fields of `cloud.Activity`, in Go declaration
order; the recursive `ChildActivities` field (the struct's last field) is
carried by the `Activity` constructor itself.

The source tags both `TotalRestlessSleepDuration` and
`TotalRestfulSleepDuration` with the same JSON key
`totalRestlessSleepDuration`.  Per `encoding/json`'s field-resolution
rules, two fields at the same depth with the same effective name where
the tie cannot be broken (both are tagged) conflict, and **both are
dropped** from the type's field table: neither is ever encoded or
decoded.  The decoder and encoder below therefore have no case for that
key. -/
structure ActivityData where
  AwakeDuration : String := ""
  SleepDuration : String := ""
  NumberOfWakeups : Int := 0
  FallAsleepDuration : String := ""
  SleepEfficiencyPercentage : Int := 0
  TotalRestlessSleepDuration : String := ""
  TotalRestfulSleepDuration : String := ""
  RestingHeartRate : Int := 0
  FallAsleepTime : Option Timestamp := none
  WakeupTime : Option Timestamp := none
  RoundsPerformed : Int := 0
  RepetitionsPerformed : Int := 0
  WorkoutPlanID : String := ""
  PerformanceSummary : PerformanceSummary := {}
  ActivityType : String := ""
  ActivitySegment : List ActivitySegment := []
  ID : String := ""
  UserID : String := ""
  DeviceID : String := ""
  StartTime : Option Timestamp := none
  EndTime : Option Timestamp := none
  DayID : Option Timestamp := none
  CreatedTime : Option Timestamp := none
  CreatedBy : String := ""
  Name : String := ""
  Duration : String := ""
  MinuteSummaries : List Summary := []
  HeartRateSummary : HeartRateSummary := {}
  CaloriesBurnedSummary : CaloriesBurnedSummary := {}
  UVExposure : String := ""
  DistanceSummary : DistanceSummary := {}
  PausedDuration : String := ""
  SplitDistance : Int := 0
  MapPoints : List MapPoint := []
  TotalStepCount : Int := 0
  TotalDistanceWalked : Int := 0
  ParOrBetterCount : Int := 0
  LongestDriveDistance : Int := 0
  LongestStrokeDistance : Int := 0
deriving DecidableEq

def ActivityData.zero : ActivityData := {}

/-- `cloud.Activity`: its scalar/nested fields plus the recursive
`ChildActivities []Activity` field. -/
inductive Activity where
  | mk (data : ActivityData) (ChildActivities : List Activity)

def Activity.data : Activity → ActivityData
  | .mk d _ => d

def Activity.ChildActivities : Activity → List Activity
  | .mk _ kids => kids

def Activity.zero : Activity := .mk {} []

/-- The non-recursive part of `Activity`'s tag table. -/
def decodeActivityDataStep (k : String) (v : Json) (acc : ActivityData)
    (e : Option String) : ActivityData × Option String :=
  if k = "awakeDuration" then applyField acc e (fun x => { acc with AwakeDuration := x }) (decStr v)
  else if k = "sleepDuration" then applyField acc e (fun x => { acc with SleepDuration := x }) (decStr v)
  else if k = "numberOfWakeups" then applyField acc e (fun x => { acc with NumberOfWakeups := x }) (decInt v)
  else if k = "fallAsleepDuration" then applyField acc e (fun x => { acc with FallAsleepDuration := x }) (decStr v)
  else if k = "sleepEfficiencyPercentage" then applyField acc e (fun x => { acc with SleepEfficiencyPercentage := x }) (decInt v)
  else if k = "restingHeartRate" then applyField acc e (fun x => { acc with RestingHeartRate := x }) (decInt v)
  else if k = "fallAsleepTime" then applyField acc e (fun x => { acc with FallAsleepTime := x }) (decTimePtr v)
  else if k = "wakeupTime" then applyField acc e (fun x => { acc with WakeupTime := x }) (decTimePtr v)
  else if k = "roundsPerformed" then applyField acc e (fun x => { acc with RoundsPerformed := x }) (decInt v)
  else if k = "repetitionsPerformed" then applyField acc e (fun x => { acc with RepetitionsPerformed := x }) (decInt v)
  else if k = "workoutPlanId" then applyField acc e (fun x => { acc with WorkoutPlanID := x }) (decStr v)
  else if k = "performanceSummary" then
    applySub e (fun x => { acc with PerformanceSummary := x })
      (decodePerformanceSummaryInto v acc.PerformanceSummary)
  else if k = "activityType" then applyField acc e (fun x => { acc with ActivityType := x }) (decStr v)
  else if k = "activitySegments" then
    applyList acc e (fun x => { acc with ActivitySegment := x })
      decodeActivitySegmentInto ActivitySegment.zero v
  else if k = "id" then applyField acc e (fun x => { acc with ID := x }) (decStr v)
  else if k = "userId" then applyField acc e (fun x => { acc with UserID := x }) (decStr v)
  else if k = "deviceId" then applyField acc e (fun x => { acc with DeviceID := x }) (decStr v)
  else if k = "startTime" then applyField acc e (fun x => { acc with StartTime := x }) (decTimePtr v)
  else if k = "endTime" then applyField acc e (fun x => { acc with EndTime := x }) (decTimePtr v)
  else if k = "dayId" then applyField acc e (fun x => { acc with DayID := x }) (decTimePtr v)
  else if k = "createdTime" then applyField acc e (fun x => { acc with CreatedTime := x }) (decTimePtr v)
  else if k = "createdBy" then applyField acc e (fun x => { acc with CreatedBy := x }) (decStr v)
  else if k = "name" then applyField acc e (fun x => { acc with Name := x }) (decStr v)
  else if k = "duration" then applyField acc e (fun x => { acc with Duration := x }) (decStr v)
  else if k = "minuteSummaries" then
    applyList acc e (fun x => { acc with MinuteSummaries := x }) decodeSummaryInto Summary.zero v
  else if k = "heartRateSummary" then
    applySub e (fun x => { acc with HeartRateSummary := x })
      (decodeHeartRateSummaryInto v acc.HeartRateSummary)
  else if k = "caloriesBurnedSummary" then
    applySub e (fun x => { acc with CaloriesBurnedSummary := x })
      (decodeCaloriesBurnedSummaryInto v acc.CaloriesBurnedSummary)
  else if k = "uvExposure" then applyField acc e (fun x => { acc with UVExposure := x }) (decStr v)
  else if k = "distanceSummary" then
    applySub e (fun x => { acc with DistanceSummary := x })
      (decodeDistanceSummaryInto v acc.DistanceSummary)
  else if k = "pausedDuration" then applyField acc e (fun x => { acc with PausedDuration := x }) (decStr v)
  else if k = "splitDistance" then applyField acc e (fun x => { acc with SplitDistance := x }) (decInt v)
  else if k = "mapPoints" then
    applyList acc e (fun x => { acc with MapPoints := x }) decodeMapPointInto MapPoint.zero v
  else if k = "totalStepCount" then applyField acc e (fun x => { acc with TotalStepCount := x }) (decInt v)
  else if k = "totalDistanceWalked" then applyField acc e (fun x => { acc with TotalDistanceWalked := x }) (decInt v)
  else if k = "parOrBetterCount" then applyField acc e (fun x => { acc with ParOrBetterCount := x }) (decInt v)
  else if k = "longestDriveDistance" then applyField acc e (fun x => { acc with LongestDriveDistance := x }) (decInt v)
  else if k = "longestStrokeDistance" then applyField acc e (fun x => { acc with LongestStrokeDistance := x }) (decInt v)
  else (acc, e)

mutual

/-- Go `json.Unmarshal` into a `cloud.Activity` value. -/
def decodeActivityInto : Json → Activity → DecRes Activity
  | .obj fields, dest =>
    let (d, kids, e) := decodeActivityFields fields dest.data dest.ChildActivities none
    ⟨.mk d kids, e⟩
  | .null, dest => ⟨dest, none⟩
  | _, dest => ⟨dest, some "json: cannot unmarshal value into cloud.Activity"⟩

def decodeActivityFields :
    List (String × Json) → ActivityData → List Activity → Option String →
    ActivityData × List Activity × Option String
  | [], d, kids, e => (d, kids, e)
  | (k, v) :: rest, d, kids, e =>
    let (d2, kids2, e2) := decodeActivityStep k v d kids e
    decodeActivityFields rest d2 kids2 e2

/-- One JSON object member decoded against `Activity`'s effective tag
table.  There is deliberately no case for `totalRestlessSleepDuration`:
the two fields tagged with it conflict and are dropped by
`encoding/json`, so that key is an unknown key and is ignored. -/
def decodeActivityStep (k : String) (v : Json) (acc : ActivityData)
    (kids : List Activity) (e : Option String) :
    ActivityData × List Activity × Option String :=
  if k = "childActivities" then
    match v with
    | .null => (acc, [], e)
    | .arr xs =>
      let (ys, e2) := decodeActivityArr xs
      (acc, ys, mergeErr e e2)
    | _ => (acc, kids, saveErr e "json: cannot unmarshal value into Go slice")
  else
    let (a2, e2) := decodeActivityDataStep k v acc e
    (a2, kids, e2)

def decodeActivityArr : List Json → List Activity × Option String
  | [] => ([], none)
  | x :: xs =>
    let r := decodeActivityInto x Activity.zero
    let (ys, e) := decodeActivityArr xs
    (r.value :: ys, mergeErr r.err e)

end

structure Activities where
  SleepActivities : List Activity := []
  RunActivities : List Activity := []
  GuidedWorkoutActivites : List Activity := []
  GolfActivities : List Activity := []
  FreePlayActivities : List Activity := []
  BikeActivities : List Activity := []
  ItemCount : Int := 0
  NextPage : String := ""

def Activities.zero : Activities := {}

def decodeActivitiesStep (k : String) (v : Json) (acc : Activities) (e : Option String) :
    Activities × Option String :=
  if k = "sleepActivities" then
    applyList acc e (fun x => { acc with SleepActivities := x }) decodeActivityInto Activity.zero v
  else if k = "runActivities" then
    applyList acc e (fun x => { acc with RunActivities := x }) decodeActivityInto Activity.zero v
  else if k = "guidedWorkoutActivities" then
    applyList acc e (fun x => { acc with GuidedWorkoutActivites := x }) decodeActivityInto Activity.zero v
  else if k = "golfActivities" then
    applyList acc e (fun x => { acc with GolfActivities := x }) decodeActivityInto Activity.zero v
  else if k = "freePlayActivities" then
    applyList acc e (fun x => { acc with FreePlayActivities := x }) decodeActivityInto Activity.zero v
  else if k = "bikeActivities" then
    applyList acc e (fun x => { acc with BikeActivities := x }) decodeActivityInto Activity.zero v
  else if k = "itemCount" then applyField acc e (fun x => { acc with ItemCount := x }) (decInt v)
  else if k = "nextPage" then applyField acc e (fun x => { acc with NextPage := x }) (decStr v)
  else (acc, e)

def decodeActivitiesInto (j : Json) (dest : Activities) : DecRes Activities :=
  decodeWith decodeActivitiesStep "cloud.Activities" j dest

/-! ## `json.Marshal` for the body types.

Keys are emitted in Go struct declaration order; none of the structs use
`omitempty`, so every (non-conflicting) field is always emitted.  A zero
Go slice is nil and marshals to JSON `null`; a nil `*time.Time` marshals
to `null` and a non-nil one to its RFC 3339 string. -/

def marshalTimePtr : Option Timestamp → Json
  | none => .null
  | some t => .str t.val

/-- Go slices: the zero value is nil and encodes as `null`; otherwise an
array.  (A non-nil empty slice is not representable in this model; the
client never constructs one.) -/
def marshalListWith (m : γ → Json) : List γ → Json
  | [] => .null
  | x :: xs => .arr ((x :: xs).map m)

def marshalCaloriesBurnedSummary (s : CaloriesBurnedSummary) : Json :=
  .obj [("period", .str s.Period), ("totalCalories", .num s.TotalCalories)]

def marshalHeartRateSummary (s : HeartRateSummary) : Json :=
  .obj [("period", .str s.Period), ("averageHeartRate", .num s.AverageHeartRate),
        ("peakHeartRate", .num s.PeakHeartRate), ("lowestHeartRate", .num s.LowestHeartRate)]

def marshalDistanceSummary (s : DistanceSummary) : Json :=
  .obj [("period", .str s.Period), ("totalDistance", .num s.TotalDistance),
        ("totalDistanceOnFoot", .num s.TotalDistanceOnFoot),
        ("actualDistance", .num s.ActualDistance), ("elevationGain", .num s.ElevationGain),
        ("elevationLoss", .num s.ElevationLoss), ("maxElevation", .num s.MaxElevation),
        ("minElevation", .num s.MinElevation), ("waypointDistance", .num s.WaypointDistance),
        ("speed", .num s.Speed), ("pace", .num s.Pace), ("overallPace", .num s.OverallPace)]

def marshalSummary (s : Summary) : Json :=
  .obj [("activeHours", .num s.ActiveHours), ("uvExposure", .str s.UVExposure),
        ("CaloriesBurnedSummary", marshalCaloriesBurnedSummary s.CaloriesBurnedSummary),
        ("HeartRateSummary", marshalHeartRateSummary s.HeartRateSummary),
        ("distanceSummary", marshalDistanceSummary s.DistanceSummary),
        ("floorsClimbed", .num s.FloorsClimbed), ("stepsTaken", .num s.StepsTaken),
        ("duration", .str s.Duration), ("period", .str s.Period),
        ("isTransitDay", .bool s.IsTransitDay), ("parentDay", marshalTimePtr s.ParentDay),
        ("endTime", marshalTimePtr s.EndTime), ("startTime", marshalTimePtr s.StartTime),
        ("userId", .str s.UserID)]

def marshalProfile (p : Profile) : Json :=
  .obj [("firstString", .str p.FirstName), ("middleName", .str p.MiddleName),
        ("lastName", .str p.LastName), ("birthdate", marshalTimePtr p.Birthdate),
        ("postalCode", .str p.PostalCode), ("gender", .str p.Gender),
        ("height", .num p.Height), ("weight", .num p.Weight),
        ("preferredLocale", .str p.PreferredLocale),
        ("lastUpdateTime", marshalTimePtr p.LastUpdateTime)]

def marshalHeartRateZones (z : HeartRateZones) : Json :=
  .obj [("underHealthyHeart", .num z.UnderHealthyHeart), ("underAerobic", .num z.UnderAerobic),
        ("aerobic", .num z.Aerobic), ("anaerobic", .num z.Anaerobic),
        ("fitnessZone", .num z.FitnessZone), ("healthyHeart", .num z.HealthyHeart),
        ("redline", .num z.Redline), ("overRedline", .num z.OverRedline)]

def marshalPerformanceSummary (p : PerformanceSummary) : Json :=
  .obj [("finishHeartRate", .num p.FinishHeartRate),
        ("recoveryHeartRateAt1Minute", .num p.RecoveryHeartRateAt1Minute),
        ("recoveryHeartRateAt2Minutes", .num p.RecoveryHeartRateAt2Minutes),
        ("heartRateZones", marshalHeartRateZones p.HeartRateZones)]

def marshalLocation (l : Location) : Json :=
  .obj [("speedOverGround", .num l.SpeedOverGround), ("latitude", .num l.Latitude),
        ("longitude", .num l.Longitude),
        ("elevationFromMeanSeaLevel", .num l.ElevationFromMeanSeaLevel),
        ("estimatedHorizontalError", .num l.EstimatedHorizontalError),
        ("estimatedVerticalError", .num l.EstimatedVerticalError)]

def marshalMapPoint (m : MapPoint) : Json :=
  .obj [("secondsSinceStart", .num m.SecondsSinceStart), ("mapPointType", .str m.MapPointType),
        ("ordinal", .num m.Ordinal), ("actualDistance", .num m.ActualDistance),
        ("totalDistance", .num m.TotalDistance), ("heartRate", .num m.HeartRate),
        ("pace", .num m.Pace), ("scaledPace", .num m.ScaledPace), ("speed", .num m.Speed),
        ("location", marshalLocation m.Location), ("isPaused", .bool m.IsPaused),
        ("isResume", .bool m.IsResume)]

def marshalActivitySegment (s : ActivitySegment) : Json :=
  .obj [("sleepTime", .num s.SleepTime), ("dayId", marshalTimePtr s.DayID),
        ("sleepType", .str s.SleepType), ("segmentId", .num s.SegmentID),
        ("startTime", marshalTimePtr s.StartTime), ("endTime", marshalTimePtr s.EndTime),
        ("duration", .str s.Duration),
        ("heartRateSummary", marshalHeartRateSummary s.HeartRateSummary),
        ("caloriesBurnedSummary", marshalCaloriesBurnedSummary s.CaloriesBurnedSummary),
        ("segmentType", .str s.SegmentType),
        ("distanceSummary", marshalDistanceSummary s.DistanceSummary),
        ("pausedDuration", .str s.PausedDuration),
        ("heartRateZones", marshalHeartRateZones s.HeartRateZones),
        ("splitDistance", .num s.SplitDistance), ("circuitOrdinal", .num s.CircuitOrdinal),
        ("circuitType", .num s.CircuitType), ("holeNumber", .num s.HoleNumber),
        ("stepCount", .num s.StepCount), ("distanceWalked", .num s.DistanceWalked)]

mutual

/-- `json.Marshal` of a `cloud.Activity`.  The two fields tagged
`totalRestlessSleepDuration` conflict and are dropped by `encoding/json`,
so neither appears in the output. -/
def marshalActivity : Activity → Json
  | .mk d kids =>
    .obj [("awakeDuration", .str d.AwakeDuration), ("sleepDuration", .str d.SleepDuration),
          ("numberOfWakeups", .num d.NumberOfWakeups),
          ("fallAsleepDuration", .str d.FallAsleepDuration),
          ("sleepEfficiencyPercentage", .num d.SleepEfficiencyPercentage),
          ("restingHeartRate", .num d.RestingHeartRate),
          ("fallAsleepTime", marshalTimePtr d.FallAsleepTime),
          ("wakeupTime", marshalTimePtr d.WakeupTime),
          ("roundsPerformed", .num d.RoundsPerformed),
          ("repetitionsPerformed", .num d.RepetitionsPerformed),
          ("workoutPlanId", .str d.WorkoutPlanID),
          ("performanceSummary", marshalPerformanceSummary d.PerformanceSummary),
          ("activityType", .str d.ActivityType),
          ("activitySegments", marshalListWith marshalActivitySegment d.ActivitySegment),
          ("id", .str d.ID), ("userId", .str d.UserID), ("deviceId", .str d.DeviceID),
          ("startTime", marshalTimePtr d.StartTime), ("endTime", marshalTimePtr d.EndTime),
          ("dayId", marshalTimePtr d.DayID), ("createdTime", marshalTimePtr d.CreatedTime),
          ("createdBy", .str d.CreatedBy), ("name", .str d.Name),
          ("duration", .str d.Duration),
          ("minuteSummaries", marshalListWith marshalSummary d.MinuteSummaries),
          ("heartRateSummary", marshalHeartRateSummary d.HeartRateSummary),
          ("caloriesBurnedSummary", marshalCaloriesBurnedSummary d.CaloriesBurnedSummary),
          ("uvExposure", .str d.UVExposure),
          ("distanceSummary", marshalDistanceSummary d.DistanceSummary),
          ("pausedDuration", .str d.PausedDuration),
          ("splitDistance", .num d.SplitDistance),
          ("mapPoints", marshalListWith marshalMapPoint d.MapPoints),
          ("totalStepCount", .num d.TotalStepCount),
          ("totalDistanceWalked", .num d.TotalDistanceWalked),
          ("parOrBetterCount", .num d.ParOrBetterCount),
          ("longestDriveDistance", .num d.LongestDriveDistance),
          ("longestStrokeDistance", .num d.LongestStrokeDistance),
          ("childActivities", marshalActivityKids kids)]

def marshalActivityKids : List Activity → Json
  | [] => .null
  | x :: xs => .arr (marshalActivity x :: marshalActivityElems xs)

def marshalActivityElems : List Activity → List Json
  | [] => []
  | x :: xs => marshalActivity x :: marshalActivityElems xs

end

/-! ## `net/url` model.

`NewRequest` runs `url.Parse(urlStr)` as a validity check, then parses
`c.BaseUrl.String() + urlStr` and serializes the result with `.String()`.
Go works on bytes; this model works on `Char`s, which agrees with Go on
ASCII data (all the client produces and all any theorem quantifies
over). -/

def isCtl (c : Char) : Bool :=
  decide (c < ' ') || decide (c = Char.ofNat 127)

def isAlphaNumCh (c : Char) : Bool :=
  (decide ('a' ≤ c) && decide (c ≤ 'z')) || (decide ('A' ≤ c) && decide (c ≤ 'Z')) ||
  isDigitCh c

def isHexDigitCh (c : Char) : Bool :=
  isDigitCh c || (decide ('a' ≤ c) && decide (c ≤ 'f')) ||
  (decide ('A' ≤ c) && decide (c ≤ 'F'))

def hexVal (c : Char) : Nat :=
  if isDigitCh c then c.toNat - '0'.toNat
  else if decide ('a' ≤ c) && decide (c ≤ 'f') then c.toNat - 'a'.toNat + 10
  else c.toNat - 'A'.toNat + 10

/-- Go `net/url.shouldEscape(c, mode)` for the two modes `String()`
uses on the parts `NewRequest` can produce: `encodePath` (`frag =
false`) and `encodeFragment` (`frag = true`). -/
def shouldEscape (frag : Bool) (c : Char) : Bool :=
  if isAlphaNumCh c then false
  else if c = '-' || c = '_' || c = '.' || c = '~' then false
  else if c = '$' || c = '&' || c = '+' || c = ',' || c = '/' || c = ':' ||
          c = ';' || c = '=' || c = '?' || c = '@' then
    if frag then false else decide (c = '?')
  else if frag && (c = '!' || c = '(' || c = ')' || c = '*') then false
  else true

def upperHexDigit (n : Nat) : Char :=
  if n < 10 then Char.ofNat ('0'.toNat + n) else Char.ofNat ('A'.toNat + n - 10)

/-- Go `url.escape`: percent-encode each character that `shouldEscape`. -/
def escapeChars (frag : Bool) : List Char → List Char
  | [] => []
  | c :: rest =>
    if shouldEscape frag c then
      '%' :: upperHexDigit (c.toNat / 16) :: upperHexDigit (c.toNat % 16) ::
        escapeChars frag rest
    else c :: escapeChars frag rest

/-- Go `url.unescape`: decode `%XX` sequences; a `%` not followed by two
hex digits is an `EscapeError` and fails the parse. -/
def unescapeChars : List Char → Option (List Char)
  | [] => some []
  | c :: rest =>
    if c = '%' then
      match rest with
      | a :: b :: rest2 =>
        if isHexDigitCh a && isHexDigitCh b then
          (unescapeChars rest2).map (fun t => Char.ofNat (16 * hexVal a + hexVal b) :: t)
        else none
      | _ => none
    else (unescapeChars rest).map (fun t => c :: t)

/-- Go `url.validEncoded`: may already-escaped text be emitted
verbatim by `String()`? -/
def validEncodedCh (frag : Bool) (c : Char) : Bool :=
  if c = '!' || c = '$' || c = '&' || c = Char.ofNat 39 || c = '(' || c = ')' ||
     c = '*' || c = '+' || c = ',' || c = ';' || c = '=' || c = ':' || c = '@' then true
  else if c = '[' || c = ']' then true
  else if c = '%' then true
  else !shouldEscape frag c

def validEncoded (frag : Bool) (cs : List Char) : Bool :=
  cs.all (validEncodedCh frag)

/-- What `String()` emits for a path (or fragment) whose raw text in the
parsed URL was `raw`: Parse stores the unescaped text (failing on bad
escapes) and keeps `raw` when re-escaping the decoded text would not
reproduce it; `String()` then emits `raw` itself if it is valid as-is,
and otherwise re-escapes the decoded text. -/
def escapedSeg (frag : Bool) (raw : List Char) : Option (List Char) :=
  (unescapeChars raw).map fun u =>
    if escapeChars frag u = raw then raw
    else if validEncoded frag raw then raw
    else escapeChars frag u

/-- Split at the first occurrence of `c`, reporting whether it occurred. -/
def splitAtCh (c : Char) : List Char → List Char × Option (List Char)
  | [] => ([], none)
  | x :: xs =>
    if x = c then ([], some xs)
    else
      let (a, b) := splitAtCh c xs
      (x :: a, b)

def BASE_URL : String := "https://api.microsofthealth.net/v1/me"

def USER_AGENT : String := "go-microsoft-band-cloud-api:v0.0.1"

/-- The scheme and host part of the parsed `baseURL`; `String()` emits it
verbatim in front of the escaped path. -/
def baseSchemeHost : List Char := "https://api.microsofthealth.net".toList

/-- The path part of the parsed `baseURL`. -/
def basePath : List Char := "/v1/me".toList

/-- Models `url.Parse(urlStr)` succeeding, for the reference strings
`NewRequest` is given: path references without a scheme or authority of
their own.  Parse fails exactly on an ASCII control character anywhere,
a leading ':' (`missing protocol scheme`), or a malformed percent escape
in the path or fragment portion (the query is kept raw and not
validated).  Strings carrying their own scheme or authority — which the
client never produces and over which no theorem quantifies — are outside
the model's scope. -/
def urlParseOk (s : String) : Bool :=
  let cs := s.toList
  !cs.any isCtl &&
  (match cs with | ':' :: _ => false | _ => true) &&
  (let (pq, frag) := splitAtCh '#' cs
   let (p, _q) := splitAtCh '?' pq
   (unescapeChars p).isSome &&
   (match frag with | none => true | some f => (unescapeChars f).isSome))

/-- Models `url.Parse(c.BaseUrl.String() + urlStr)` followed by
`.String()`.  The base contributes scheme, host and the path prefix
`/v1/me`; `urlStr` extends the path and may carry a query (serialized
raw) and a fragment. -/
def resolveURL (urlStr : String) : Option String :=
  if urlStr.toList.any isCtl then none
  else
    let (pq, frag) := splitAtCh '#' (basePath ++ urlStr.toList)
    let (p, q) := splitAtCh '?' pq
    match escapedSeg false p with
    | none => none
    | some ep =>
      let qPart := match q with | none => ([] : List Char) | some qs => '?' :: qs
      match frag with
      | none => some (String.mk (baseSchemeHost ++ ep ++ qPart))
      | some f =>
        match escapedSeg true f with
        | none => none
        | some ef => some (String.mk (baseSchemeHost ++ ep ++ qPart ++ '#' :: ef))

/-- RFC 7230 token characters; `http.NewRequest` rejects a method that
is empty or contains a non-token character. -/
def isTokenCh (c : Char) : Bool :=
  isAlphaNumCh c || c = '!' || c = '#' || c = '$' || c = '%' || c = '&' ||
  c = Char.ofNat 39 || c = '*' || c = '+' || c = '-' || c = '.' || c = '^' ||
  c = '_' || c = Char.ofNat 96 || c = '|' || c = '~'

def validMethod (m : String) : Bool :=
  !m.isEmpty && m.toList.all isTokenCh

/-! ## The client.

`ConfigSource.NewClient` always builds the client with `BaseUrl :=
baseURL`, the parsed `BASE_URL`; the OAuth transport is modelled as an
explicit function from requests to either a transport error or a
response.  The response body resource is tracked by counting calls to
`resp.Body.Close()`. -/

structure Request where
  Method : String
  URL : String
  Body : Option Json
  Header : List (String × String)

/-- The bytes of a response body as seen by the JSON decoder: either a
well-formed JSON document or malformed data (on which
`json.Decoder.Decode` fails with a syntax error before populating
anything). -/
inductive BodyContent where
  | malformed (raw : String)
  | json (j : Json)

structure Response where
  StatusCode : Nat
  Body : BodyContent

/-- The errors the client returns.  Go's API returns plain `error`
values; each constructor records which code path produced the error and
carries the message text where a claim depends on it. -/
inductive CloudError where
  | urlParse (urlStr : String)
  | invalidMethod (m : String)
  | transport (msg : String)
  | httpStatus (msg : String)
  | jsonDecode (msg : String)
deriving DecidableEq

/-- `Client.NewRequest`: validate `urlStr` with `url.Parse`, resolve the
absolute URL as the string concatenation `c.BaseUrl.String() + urlStr`
re-parsed (NOT `ResolveReference`, which the source has commented out),
attach the body, and add the `User-Agent` header — the only header
added. -/
def Client.NewRequest (method urlStr : String) (body : Option Json) :
    Except CloudError Request :=
  if !urlParseOk urlStr then .error (.urlParse urlStr)
  else
    match resolveURL urlStr with
    | none => .error (.urlParse urlStr)
    | some resolved =>
      if !validMethod method then .error (.invalidMethod method)
      else .ok { Method := method, URL := resolved, Body := body,
                 Header := [("User-Agent", USER_AGENT)] }

/-- Decimal digits of `n`, least significant first, by structural
recursion on a fuel bound (so that it evaluates inside the kernel). -/
def natDigitsAux : Nat → Nat → List Char
  | 0, _ => []
  | _ + 1, 0 => []
  | fuel + 1, n + 1 => Nat.digitChar ((n + 1) % 10) :: natDigitsAux fuel ((n + 1) / 10)

/-- The decimal rendering of `n`, as `fmt` prints it. -/
def natDecimal (n : Nat) : List Char :=
  if n = 0 then ['0'] else (natDigitsAux n n).reverse

/-- The `fmt.Sprintf("%#v", resp)` rendering of the modelled response
fields, as interpolated into `Do`'s status-error message. -/
def responseRepr (r : Response) : String :=
  "&http.Response\x7bStatusCode:" ++ String.mk (natDecimal r.StatusCode) ++ "\x7d"

/-- The message of `errors.New(fmt.Sprintf("http request failed, resp: %#v", resp))`. -/
def httpFailMessage (r : Response) : String :=
  "http request failed, resp: " ++ responseRepr r

/-- What a call to `Client.Do` produced: the returned `*http.Response`
(`none` models nil), the returned error, the final state of the decode
destination, and how many times `resp.Body.Close()` ran inside `Do`. -/
structure DoOutcome (α : Type) where
  resp : Option Response
  err : Option CloudError
  dest : α
  closes : Nat

/-- `Client.Do`: send the request; on transport error return
`(nil, err)` (no body exists, nothing to close).  Otherwise the deferred
`resp.Body.Close()` runs on every remaining exit path.  A status outside
[200,299] returns `(nil, error)` without reading the body into `dest`;
otherwise, if a destination was passed, the body is JSON-decoded into it
(best-effort), and the non-nil response is returned together with the
decode error, if any. -/
def Client.Do (transport : Request → Except String Response) (req : Request)
    (dest : α) (decInto : Option (Json → α → DecRes α)) : DoOutcome α :=
  match transport req with
  | .error msg => ⟨none, some (.transport msg), dest, 0⟩
  | .ok resp =>
    if resp.StatusCode > 299 || resp.StatusCode < 200 then
      ⟨none, some (.httpStatus (httpFailMessage resp)), dest, 1⟩
    else
      match decInto with
      | none => ⟨some resp, none, dest, 1⟩
      | some dec =>
        match resp.Body with
        | .malformed raw =>
          ⟨some resp, some (.jsonDecode ("invalid character in " ++ raw)), dest, 1⟩
        | .json j =>
          let r := dec j dest
          ⟨some resp, r.err.map .jsonDecode, r.value, 1⟩

/-- What a resource accessor returned: the error, the result value, and
the total number of `Close` calls on the response body (those made
inside `Do` plus the accessor's own `resp.Body.Close()` on its success
path). -/
structure AccessorOutcome (α : Type) where
  err : Option CloudError
  value : α
  closes : Nat

/-- `type Period string` with its two constants. -/
abbrev Period := String

def HOURLY : Period := "hourly"

def DAILY : Period := "daily"

/-- `Client.PeriodSummaries` (returns `(error, Summaries)`). -/
def Client.PeriodSummaries (transport : Request → Except String Response)
    (period : Period) : AccessorOutcome MicrosoftBand.Summaries :=
  let summaries := Summaries.zero
  match Client.NewRequest "GET" ("/Summaries/" ++ period) none with
  | .error e => ⟨some e, summaries, 0⟩
  | .ok req =>
    let o := Client.Do transport req summaries (some decodeSummariesInto)
    match o.err with
    | some e => ⟨some e, o.dest, o.closes⟩
    | none => ⟨none, o.dest, o.closes + 1⟩

/-- `Client.Profile` (returns `(error, Profile)`). -/
def Client.Profile (transport : Request → Except String Response) :
    AccessorOutcome MicrosoftBand.Profile :=
  let profile := Profile.zero
  match Client.NewRequest "GET" "/Profile" none with
  | .error e => ⟨some e, profile, 0⟩
  | .ok req =>
    let o := Client.Do transport req profile (some decodeProfileInto)
    match o.err with
    | some e => ⟨some e, o.dest, o.closes⟩
    | none => ⟨none, o.dest, o.closes + 1⟩

/-- `Client.Devices` (returns `(DeviceProfiles, error)`). -/
def Client.Devices (transport : Request → Except String Response) :
    AccessorOutcome DeviceProfiles :=
  let devices := DeviceProfiles.zero
  match Client.NewRequest "GET" "/Devices" none with
  | .error e => ⟨some e, devices, 0⟩
  | .ok req =>
    let o := Client.Do transport req devices (some decodeDeviceProfilesInto)
    match o.err with
    | some e => ⟨some e, o.dest, o.closes⟩
    | none => ⟨none, o.dest, o.closes + 1⟩

/-- `Client.Device` (returns `(Device, error)`). -/
def Client.Device (transport : Request → Except String Response) (id : String) :
    AccessorOutcome Device :=
  let device := Device.zero
  match Client.NewRequest "GET" ("/Devices/" ++ id) none with
  | .error e => ⟨some e, device, 0⟩
  | .ok req =>
    let o := Client.Do transport req device (some decodeDeviceInto)
    match o.err with
    | some e => ⟨some e, o.dest, o.closes⟩
    | none => ⟨none, o.dest, o.closes + 1⟩

/-- `Client.Activities` (returns `(Activities, error)`). -/
def Client.Activities (transport : Request → Except String Response) :
    AccessorOutcome MicrosoftBand.Activities :=
  let activities := Activities.zero
  match Client.NewRequest "GET" "/Activities" none with
  | .error e => ⟨some e, activities, 0⟩
  | .ok req =>
    let o := Client.Do transport req activities (some decodeActivitiesInto)
    match o.err with
    | some e => ⟨some e, o.dest, o.closes⟩
    | none => ⟨none, o.dest, o.closes + 1⟩

/-- `Client.Activity` (returns `(Activity, error)`). -/
def Client.Activity (transport : Request → Except String Response) (id : String) :
    AccessorOutcome MicrosoftBand.Activity :=
  let activity := Activity.zero
  match Client.NewRequest "GET" ("/Activities/" ++ id) none with
  | .error e => ⟨some e, activity, 0⟩
  | .ok req =>
    let o := Client.Do transport req activity (some decodeActivityInto)
    match o.err with
    | some e => ⟨some e, o.dest, o.closes⟩
    | none => ⟨none, o.dest, o.closes + 1⟩

/-! ## Supporting definitions for the claims. -/

/-- Does decoding this error constructor come from the JSON-decode step
of `Do`? -/
def isDecodeErr : CloudError → Bool
  | .jsonDecode _ => true
  | _ => false

def isOkE : Except ε α → Bool
  | .ok _ => true
  | .error _ => false

/-- The request the spec says `build` produces: method and body as
given, URL the plain string concatenation `BASE_URL ++ path`, and the
fixed identification header.  (Stated from the spec's words, to be
compared with what `Client.NewRequest` actually returns.) -/
def specConcatRequest (method p : String) (body : Option Json) : Request :=
  { Method := method, URL := BASE_URL ++ p, Body := body,
    Header := [("User-Agent", USER_AGENT)] }

/-- The request `Client.NewRequest "GET" "/Profile" none` produces. -/
def profileRequest : Request :=
  { Method := "GET", URL := "https://api.microsofthealth.net/v1/me/Profile",
    Body := none, Header := [("User-Agent", USER_AGENT)] }

def devicesRequest : Request :=
  { Method := "GET", URL := "https://api.microsofthealth.net/v1/me/Devices",
    Body := none, Header := [("User-Agent", USER_AGENT)] }

def activitiesRequest : Request :=
  { Method := "GET", URL := "https://api.microsofthealth.net/v1/me/Activities",
    Body := none, Header := [("User-Agent", USER_AGENT)] }

/-- A transport that answers every request with the same response
(a mock `http.Client`). -/
def constTransport (r : Response) : Request → Except String Response :=
  fun _ => .ok r

/-- The response body of the C9 scenario. -/
def janeBody : Json :=
  .obj [("firstString", .str "Jane"), ("lastName", .str "Doe"), ("height", .num 170)]

def resp200 : Response := ⟨200, .json janeBody⟩

def resp404 : Response := ⟨404, .json .null⟩

/-- A 200 body whose `height` is a JSON string: decoding sets
`FirstName` and then records a type error for `Height`. -/
def badHeightBody : Json :=
  .obj [("firstString", .str "Jane"), ("height", .str "tall")]

def resp200bad : Response := ⟨200, .json badHeightBody⟩

/-- An activity whose (conflict-dropped) `TotalRestlessSleepDuration`
field is set; used to refute the serialize/deserialize round trip. -/
def activityRT : Activity := .mk { TotalRestlessSleepDuration := "5h" } []

/-- RFC 3986 sub-delims. -/
def isSubDelim (c : Char) : Bool :=
  c = '!' || c = '$' || c = '&' || c = Char.ofNat 39 || c = '(' || c = ')' ||
  c = '*' || c = '+' || c = ',' || c = ';' || c = '='

/-- RFC 3986 unreserved characters. -/
def isUnreserved (c : Char) : Bool :=
  isAlphaNumCh c || c = '-' || c = '.' || c = '_' || c = '~'

/-- An RFC 3986 `pchar` other than a percent-escape, or a path slash. -/
def isPCharPlain (c : Char) : Bool :=
  isUnreserved c || isSubDelim c || c = ':' || c = '@' || c = '/'

/-- Every character of the text is a path character or part of a
well-formed percent-escape (RFC 3986 `path-abempty` syntax). -/
def wellFormedEscapes : List Char → Bool
  | [] => true
  | c :: rest =>
    if c = '%' then
      match rest with
      | a :: b :: rest2 => isHexDigitCh a && isHexDigitCh b && wellFormedEscapes rest2
      | _ => false
    else isPCharPlain c && wellFormedEscapes rest

/-- The spec's "syntactically well-formed URI component", stated from
RFC 3986: a rooted path (starting with one `/`, so it is not a
network-path or scheme-carrying reference) all of whose characters are
path characters or well-formed percent-escapes. -/
def WellFormedPath (p : String) : Bool :=
  (match p.toList with
   | '/' :: '/' :: _ => false
   | '/' :: _ => true
   | _ => false) && wellFormedEscapes p.toList

/-- A relative path in canonical URL form: rooted, free of control
characters, every character legal for `String()` to emit verbatim in a
URL path, every escape well-formed.  These are the "valid path" inputs
for which the concatenation property is claimed; every path the client
itself builds from a sane resource id is of this form. -/
def canonicalPath (p : String) : Bool :=
  (match p.toList with
   | '/' :: _ => true
   | _ => false) &&
  p.toList.all (fun c => !isCtl c) &&
  validEncoded false p.toList &&
  (unescapeChars p.toList).isSome

/-- Scan for the first occurrence of `marker` and return what follows
it. -/
def afterMarker (marker : List Char) : List Char → Option (List Char)
  | [] => none
  | c :: rest =>
    if marker.isPrefixOf (c :: rest) then some ((c :: rest).drop marker.length)
    else afterMarker marker rest

/-- Parse the leading run of decimal digits. -/
def readLeadingNat (cs : List Char) : Option Nat :=
  let ds := cs.takeWhile isDigitCh
  if ds.isEmpty then none
  else some (ds.foldl (fun a c => 10 * a + (c.toNat - '0'.toNat)) 0)

/-- Recover the numeric status code from `Do`'s error message: find
`StatusCode:` in the `%#v` dump and read the digits after it.  This is
the branching a caller can do on the status carried by the error. -/
def extractStatusCode (msg : String) : Option Nat :=
  match afterMarker "StatusCode:".toList msg.toList with
  | none => none
  | some rest => readLeadingNat rest

/-! ## Theorems for the claims. -/

/-- C9: requesting `GET /Profile` against a transport returning status
200 with body
`{"firstString":"Jane","lastName":"Doe","height":170}` yields
`FirstName = "Jane"`, `LastName = "Doe"`, `Height = 170` and a null
error. -/
theorem C9_profile_scenario :
    (Client.Profile (constTransport resp200)).err = none ∧
    (Client.Profile (constTransport resp200)).value.FirstName = "Jane" ∧
    (Client.Profile (constTransport resp200)).value.LastName = "Doe" ∧
    (Client.Profile (constTransport resp200)).value.Height = 170 := by
  decide

/-- C8: every request `NewRequest` produces carries exactly the fixed
`User-Agent` header and nothing else — no Accept, Content-Type or
Authorization. -/
theorem C8_user_agent_only (method p : String) (body : Option Json) (r : Request)
    (h : Client.NewRequest method p body = .ok r) :
    r.Header = [("User-Agent", USER_AGENT)] := by
  unfold Client.NewRequest at h
  split at h
  · exact absurd h (by simp)
  · split at h
    · exact absurd h (by simp)
    · split at h
      · exact absurd h (by simp)
      · cases h
        rfl

theorem C8_user_agent_only_witness :
    Client.NewRequest "GET" "/Profile" none = .ok profileRequest ∧
    profileRequest.Header = [("User-Agent", USER_AGENT)] :=
  ⟨rfl, C8_user_agent_only "GET" "/Profile" none profileRequest rfl⟩

/-- Every path through `Do` after a successful transport send closes the
response body exactly once (the deferred `resp.Body.Close()`). -/
theorem do_closes_once {α : Type} (t : Request → Except String Response)
    (req : Request) (dest : α) (dec : Option (Json → α → DecRes α))
    (resp : Response) (ht : t req = .ok resp) :
    (Client.Do t req dest dec).closes = 1 := by
  unfold Client.Do
  rw [ht]
  repeat' split
  all_goals simp_all

/-- C3: a response status outside [200,299] makes `Do` return an
HTTP-status error with a nil response, without parsing the body and
without touching the destination. -/
theorem C3_status_error_skips_decode {α : Type}
    (t : Request → Except String Response) (req : Request) (dest : α)
    (dec : Option (Json → α → DecRes α)) (resp : Response)
    (ht : t req = .ok resp) (hs : 299 < resp.StatusCode ∨ resp.StatusCode < 200) :
    Client.Do t req dest dec =
      ⟨none, some (.httpStatus (httpFailMessage resp)), dest, 1⟩ := by
  unfold Client.Do
  rw [ht]
  have hcond : (decide (resp.StatusCode > 299) || decide (resp.StatusCode < 200)) = true := by
    rcases hs with h | h <;> simp [h]
  simp [hcond]

theorem C3_status_error_skips_decode_witness :
    constTransport resp404 profileRequest = .ok resp404 ∧
    (299 < resp404.StatusCode ∨ resp404.StatusCode < 200) ∧
    Client.Do (constTransport resp404) profileRequest Profile.zero
        (some decodeProfileInto) =
      ⟨none, some (.httpStatus (httpFailMessage resp404)), Profile.zero, 1⟩ :=
  ⟨rfl, Or.inl (by decide),
    C3_status_error_skips_decode (constTransport resp404) profileRequest
      Profile.zero (some decodeProfileInto) resp404 rfl (Or.inl (by decide))⟩

/-- C1 (amended): after a successful transport send, `Do` closes the
response body exactly once on each of its exit paths, but a full
accessor call closes it once more on its success path — so over an
accessor call the body is closed once on error exits and twice when the
accessor returns no error.  (The claim's "exactly once ... including the
subsequent accessor return path" fails on the success path, where the
accessor's own `resp.Body.Close()` is the second close.) -/
theorem C1_close_counts :
    (∀ (α : Type) (t : Request → Except String Response) (req : Request) (dest : α)
        (dec : Option (Json → α → DecRes α)) (resp : Response),
        t req = .ok resp → (Client.Do t req dest dec).closes = 1) ∧
    (∀ (t : Request → Except String Response) (resp : Response),
        t profileRequest = .ok resp →
        (Client.Profile t).closes = if (Client.Profile t).err = none then 2 else 1) ∧
    (∀ (t : Request → Except String Response) (resp : Response),
        t devicesRequest = .ok resp →
        (Client.Devices t).closes = if (Client.Devices t).err = none then 2 else 1) ∧
    (∀ (t : Request → Except String Response) (resp : Response),
        t activitiesRequest = .ok resp →
        (Client.Activities t).closes =
          if (Client.Activities t).err = none then 2 else 1) ∧
    (∀ (t : Request → Except String Response) (period : Period) (req : Request)
        (resp : Response),
        Client.NewRequest "GET" ("/Summaries/" ++ period) none = .ok req →
        t req = .ok resp →
        (Client.PeriodSummaries t period).closes =
          if (Client.PeriodSummaries t period).err = none then 2 else 1) ∧
    (∀ (t : Request → Except String Response) (id : String) (req : Request)
        (resp : Response),
        Client.NewRequest "GET" ("/Devices/" ++ id) none = .ok req →
        t req = .ok resp →
        (Client.Device t id).closes = if (Client.Device t id).err = none then 2 else 1) ∧
    (∀ (t : Request → Except String Response) (id : String) (req : Request)
        (resp : Response),
        Client.NewRequest "GET" ("/Activities/" ++ id) none = .ok req →
        t req = .ok resp →
        (Client.Activity t id).closes =
          if (Client.Activity t id).err = none then 2 else 1) := by
  refine ⟨fun α t req dest dec resp ht => do_closes_once t req dest dec resp ht,
    ?_, ?_, ?_, ?_, ?_, ?_⟩
  · intro t resp ht
    have h1 := do_closes_once t profileRequest Profile.zero (some decodeProfileInto) resp ht
    simp only [Client.Profile,
      show Client.NewRequest "GET" "/Profile" none = .ok profileRequest from rfl]
    cases ho : (Client.Do t profileRequest Profile.zero (some decodeProfileInto)).err <;>
      simp [ho, h1]
  · intro t resp ht
    have h1 := do_closes_once t devicesRequest DeviceProfiles.zero
      (some decodeDeviceProfilesInto) resp ht
    simp only [Client.Devices,
      show Client.NewRequest "GET" "/Devices" none = .ok devicesRequest from rfl]
    cases ho : (Client.Do t devicesRequest DeviceProfiles.zero
        (some decodeDeviceProfilesInto)).err <;>
      simp [ho, h1]
  · intro t resp ht
    have h1 := do_closes_once t activitiesRequest Activities.zero
      (some decodeActivitiesInto) resp ht
    simp only [Client.Activities,
      show Client.NewRequest "GET" "/Activities" none = .ok activitiesRequest from rfl]
    cases ho : (Client.Do t activitiesRequest Activities.zero
        (some decodeActivitiesInto)).err <;>
      simp [ho, h1]
  · intro t period req resp hnr ht
    have h1 := do_closes_once t req Summaries.zero (some decodeSummariesInto) resp ht
    simp only [Client.PeriodSummaries, hnr]
    cases ho : (Client.Do t req Summaries.zero (some decodeSummariesInto)).err <;>
      simp [ho, h1]
  · intro t id req resp hnr ht
    have h1 := do_closes_once t req Device.zero (some decodeDeviceInto) resp ht
    simp only [Client.Device, hnr]
    cases ho : (Client.Do t req Device.zero (some decodeDeviceInto)).err <;>
      simp [ho, h1]
  · intro t id req resp hnr ht
    have h1 := do_closes_once t req Activity.zero (some decodeActivityInto) resp ht
    simp only [Client.Activity, hnr]
    cases ho : (Client.Do t req Activity.zero (some decodeActivityInto)).err <;>
      simp [ho, h1]

theorem C1_close_counts_witness :
    constTransport resp404 profileRequest = .ok resp404 ∧
    (Client.Profile (constTransport resp404)).closes =
      (if (Client.Profile (constTransport resp404)).err = none then 2 else 1) :=
  ⟨rfl, C1_close_counts.2.1 (constTransport resp404) resp404 rfl⟩

/-- C1 (counterexample): a successful `GET /Profile` call returns no
error, yet the response body is closed twice — once by `Do`'s deferred
close and once by the accessor — refuting "released exactly once on
every exit path including the subsequent accessor return path". -/
theorem C1_success_closes_twice :
    (Client.Profile (constTransport resp200)).err = none ∧
    (Client.Profile (constTransport resp200)).closes = 2 := by
  decide

/-- If `Do` reports an error that did not come from the JSON-decode
step, the decode destination is untouched. -/
theorem do_dest_unchanged {α : Type} (t : Request → Except String Response)
    (req : Request) (dest : α) (dec : Option (Json → α → DecRes α)) (e : CloudError)
    (h : (Client.Do t req dest dec).err = some e) (hnd : isDecodeErr e = false) :
    (Client.Do t req dest dec).dest = dest := by
  unfold Client.Do at h ⊢
  cases htr : t req with
  | error msg => rfl
  | ok resp =>
    rw [htr] at h
    dsimp only at h ⊢
    by_cases hs : (decide (resp.StatusCode > 299) || decide (resp.StatusCode < 200)) = true
    · rw [if_pos hs]
    · rw [if_neg hs] at h ⊢
      cases dec with
      | none => exact absurd h (by simp)
      | some d =>
        dsimp only at h ⊢
        cases hb : resp.Body with
        | malformed raw => rfl
        | json j =>
          rw [hb] at h
          dsimp only at h ⊢
          cases hr : (d j dest).err with
          | none => rw [hr] at h; exact absurd h (by simp)
          | some m =>
            rw [hr] at h
            have he : CloudError.jsonDecode m = e := by simpa using h
            rw [← he] at hnd
            simp [isDecodeErr] at hnd

/-- C4 (amended): when an accessor returns an error that arose before
the JSON-decode step (request building, transport, or HTTP status), the
result is the zero value of its record type.  (An error from the decode
step itself may leave the result partially populated, because Go's
`Unmarshal` fills what it can before reporting the first error.) -/
theorem C4_zero_value_on_nondecode_error :
    (∀ (t : Request → Except String Response) (e : CloudError),
        (Client.Profile t).err = some e → isDecodeErr e = false →
        (Client.Profile t).value = Profile.zero) ∧
    (∀ (t : Request → Except String Response) (e : CloudError),
        (Client.Devices t).err = some e → isDecodeErr e = false →
        (Client.Devices t).value = DeviceProfiles.zero) ∧
    (∀ (t : Request → Except String Response) (e : CloudError),
        (Client.Activities t).err = some e → isDecodeErr e = false →
        (Client.Activities t).value = Activities.zero) ∧
    (∀ (t : Request → Except String Response) (period : Period) (e : CloudError),
        (Client.PeriodSummaries t period).err = some e → isDecodeErr e = false →
        (Client.PeriodSummaries t period).value = Summaries.zero) ∧
    (∀ (t : Request → Except String Response) (id : String) (e : CloudError),
        (Client.Device t id).err = some e → isDecodeErr e = false →
        (Client.Device t id).value = Device.zero) ∧
    (∀ (t : Request → Except String Response) (id : String) (e : CloudError),
        (Client.Activity t id).err = some e → isDecodeErr e = false →
        (Client.Activity t id).value = Activity.zero) := by
  refine ⟨?_, ?_, ?_, ?_, ?_, ?_⟩
  · intro t e h hnd
    unfold Client.Profile at h ⊢
    cases hnr : Client.NewRequest "GET" "/Profile" none with
    | error e0 => rfl
    | ok req =>
      rw [hnr] at h
      dsimp only at h ⊢
      cases ho : (Client.Do t req Profile.zero (some decodeProfileInto)).err with
      | none => rw [ho] at h; exact absurd h (by simp)
      | some e2 =>
        rw [ho] at h
        dsimp only at h ⊢
        obtain rfl : e2 = e := by simpa using h
        exact do_dest_unchanged t req Profile.zero (some decodeProfileInto) e2 ho hnd
  · intro t e h hnd
    unfold Client.Devices at h ⊢
    cases hnr : Client.NewRequest "GET" "/Devices" none with
    | error e0 => rfl
    | ok req =>
      rw [hnr] at h
      dsimp only at h ⊢
      cases ho : (Client.Do t req DeviceProfiles.zero (some decodeDeviceProfilesInto)).err with
      | none => rw [ho] at h; exact absurd h (by simp)
      | some e2 =>
        rw [ho] at h
        dsimp only at h ⊢
        obtain rfl : e2 = e := by simpa using h
        exact do_dest_unchanged t req DeviceProfiles.zero
          (some decodeDeviceProfilesInto) e2 ho hnd
  · intro t e h hnd
    unfold Client.Activities at h ⊢
    cases hnr : Client.NewRequest "GET" "/Activities" none with
    | error e0 => rfl
    | ok req =>
      rw [hnr] at h
      dsimp only at h ⊢
      cases ho : (Client.Do t req Activities.zero (some decodeActivitiesInto)).err with
      | none => rw [ho] at h; exact absurd h (by simp)
      | some e2 =>
        rw [ho] at h
        dsimp only at h ⊢
        obtain rfl : e2 = e := by simpa using h
        exact do_dest_unchanged t req Activities.zero (some decodeActivitiesInto) e2 ho hnd
  · intro t period e h hnd
    unfold Client.PeriodSummaries at h ⊢
    cases hnr : Client.NewRequest "GET" ("/Summaries/" ++ period) none with
    | error e0 => rfl
    | ok req =>
      rw [hnr] at h
      dsimp only at h ⊢
      cases ho : (Client.Do t req Summaries.zero (some decodeSummariesInto)).err with
      | none => rw [ho] at h; exact absurd h (by simp)
      | some e2 =>
        rw [ho] at h
        dsimp only at h ⊢
        obtain rfl : e2 = e := by simpa using h
        exact do_dest_unchanged t req Summaries.zero (some decodeSummariesInto) e2 ho hnd
  · intro t id e h hnd
    unfold Client.Device at h ⊢
    cases hnr : Client.NewRequest "GET" ("/Devices/" ++ id) none with
    | error e0 => rfl
    | ok req =>
      rw [hnr] at h
      dsimp only at h ⊢
      cases ho : (Client.Do t req Device.zero (some decodeDeviceInto)).err with
      | none => rw [ho] at h; exact absurd h (by simp)
      | some e2 =>
        rw [ho] at h
        dsimp only at h ⊢
        obtain rfl : e2 = e := by simpa using h
        exact do_dest_unchanged t req Device.zero (some decodeDeviceInto) e2 ho hnd
  · intro t id e h hnd
    unfold Client.Activity at h ⊢
    cases hnr : Client.NewRequest "GET" ("/Activities/" ++ id) none with
    | error e0 => rfl
    | ok req =>
      rw [hnr] at h
      dsimp only at h ⊢
      cases ho : (Client.Do t req Activity.zero (some decodeActivityInto)).err with
      | none => rw [ho] at h; exact absurd h (by simp)
      | some e2 =>
        rw [ho] at h
        dsimp only at h ⊢
        obtain rfl : e2 = e := by simpa using h
        exact do_dest_unchanged t req Activity.zero (some decodeActivityInto) e2 ho hnd

theorem C4_zero_value_on_nondecode_error_witness :
    (Client.Profile (constTransport resp404)).err =
      some (.httpStatus (httpFailMessage resp404)) ∧
    isDecodeErr (.httpStatus (httpFailMessage resp404)) = false ∧
    (Client.Profile (constTransport resp404)).value = Profile.zero :=
  ⟨rfl, rfl,
    C4_zero_value_on_nondecode_error.1 (constTransport resp404)
      (.httpStatus (httpFailMessage resp404)) rfl rfl⟩

/-- C4 (counterexample): status 200 with body
`{"firstString":"Jane","height":"tall"}` makes the decode step fail
(type error on `height`), so `Profile` returns a non-null error — yet
the result is not the zero value: `FirstName` was already populated. -/
theorem C4_decode_error_keeps_partial_result :
    (Client.Profile (constTransport resp200bad)).err.isSome = true ∧
    (Client.Profile (constTransport resp200bad)).value ≠ Profile.zero := by
  decide

/-! ### Lemmas about the `net/url` model. -/

theorem wfe_unescape_isSome : ∀ cs, wellFormedEscapes cs = true →
    (unescapeChars cs).isSome = true := by
  intro cs
  induction cs using wellFormedEscapes.induct with
  | case1 => intro h; simp [unescapeChars]
  | case2 a b rest2 ih => intro h; simp_all [wellFormedEscapes, unescapeChars]
  | case3 rest hshort =>
    intro h
    rcases rest with _ | ⟨a, rest1⟩
    · simp [wellFormedEscapes] at h
    rcases rest1 with _ | ⟨b, rest2⟩
    · simp [wellFormedEscapes] at h
    exact (hshort a b rest2 rfl).elim
  | case4 c rest hc ih =>
    intro h
    rw [wellFormedEscapes.eq_def] at h
    dsimp only at h
    rw [if_neg hc, Bool.and_eq_true] at h
    rw [unescapeChars.eq_def]
    dsimp only
    rw [if_neg hc]
    simp [ih h.2]

theorem wfe_chars : ∀ cs, wellFormedEscapes cs = true →
    ∀ x ∈ cs, x = '%' ∨ isHexDigitCh x = true ∨ isPCharPlain x = true := by
  intro cs
  induction cs using wellFormedEscapes.induct with
  | case1 => intro h x hx; simp at hx
  | case2 a b rest2 ih =>
    intro h x hx
    rw [wellFormedEscapes.eq_def] at h
    dsimp only at h
    rw [if_pos rfl, Bool.and_eq_true, Bool.and_eq_true] at h
    simp only [List.mem_cons] at hx
    rcases hx with rfl | rfl | rfl | hx
    · exact Or.inl rfl
    · exact Or.inr (Or.inl h.1.1)
    · exact Or.inr (Or.inl h.1.2)
    · exact ih h.2 x hx
  | case3 rest hshort =>
    intro h x hx
    rcases rest with _ | ⟨a, rest1⟩
    · simp [wellFormedEscapes] at h
    rcases rest1 with _ | ⟨b, rest2⟩
    · simp [wellFormedEscapes] at h
    exact (hshort a b rest2 rfl).elim
  | case4 c rest hc ih =>
    intro h x hx
    rw [wellFormedEscapes.eq_def] at h
    dsimp only at h
    rw [if_neg hc, Bool.and_eq_true] at h
    simp only [List.mem_cons] at hx
    rcases hx with rfl | hx
    · exact Or.inr (Or.inr h.1)
    · exact ih h.2 x hx

/-- `isCtl` is false on any character between printable bounds. -/
theorem isCtl_false_of_between {lo hi c : Char} (h1 : lo ≤ c) (h2 : c ≤ hi)
    (hlo : ' ' ≤ lo) (hhi : hi < Char.ofNat 127) : isCtl c = false := by
  unfold isCtl
  have hxa : ¬ (c < ' ') := not_lt.mpr (le_trans hlo h1)
  have hxb : c ≠ Char.ofNat 127 := ne_of_lt (lt_of_le_of_lt h2 hhi)
  simp [hxa, hxb]

theorem isCtl_false_of_alphaNum {c : Char} (h : isAlphaNumCh c = true) :
    isCtl c = false := by
  unfold isAlphaNumCh at h
  simp only [Bool.or_eq_true, Bool.and_eq_true, decide_eq_true_eq] at h
  rcases h with (⟨h1, h2⟩ | ⟨h1, h2⟩) | h
  · exact isCtl_false_of_between h1 h2 (by decide) (by decide)
  · exact isCtl_false_of_between h1 h2 (by decide) (by decide)
  · unfold isDigitCh at h
    simp only [Bool.and_eq_true, decide_eq_true_eq] at h
    exact isCtl_false_of_between h.1 h.2 (by decide) (by decide)

theorem isCtl_false_of_hex {c : Char} (h : isHexDigitCh c = true) :
    isCtl c = false := by
  unfold isHexDigitCh at h
  simp only [Bool.or_eq_true, Bool.and_eq_true, decide_eq_true_eq] at h
  rcases h with (h | ⟨h1, h2⟩) | ⟨h1, h2⟩
  · unfold isDigitCh at h
    simp only [Bool.and_eq_true, decide_eq_true_eq] at h
    exact isCtl_false_of_between h.1 h.2 (by decide) (by decide)
  · exact isCtl_false_of_between h1 h2 (by decide) (by decide)
  · exact isCtl_false_of_between h1 h2 (by decide) (by decide)

theorem isCtl_false_of_pchar {c : Char} (h : isPCharPlain c = true) :
    isCtl c = false := by
  unfold isPCharPlain isUnreserved isSubDelim at h
  simp only [Bool.or_eq_true, decide_eq_true_eq] at h
  rcases h with
    ((((((((ha | rfl) | rfl) | rfl) | rfl) |
      ((((((((((rfl | rfl) | rfl) | rfl) | rfl) | rfl) | rfl) | rfl) | rfl) | rfl) | rfl)) |
      rfl) | rfl) | rfl)
  · exact isCtl_false_of_alphaNum ha
  all_goals decide

/-- Characters of a well-formed path are never control characters. -/
theorem wfe_no_ctl {cs : List Char} (h : wellFormedEscapes cs = true) :
    ∀ x ∈ cs, isCtl x = false := by
  intro x hx
  rcases wfe_chars cs h x hx with h1 | h1 | h1
  · rw [h1]; decide
  · exact isCtl_false_of_hex h1
  · exact isCtl_false_of_pchar h1

/-- Characters of a well-formed path are never `#` or `?`. -/
theorem wfe_no_hash_query {cs : List Char} (h : wellFormedEscapes cs = true) :
    ∀ x ∈ cs, x ≠ '#' ∧ x ≠ '?' := by
  intro x hx
  rcases wfe_chars cs h x hx with h1 | h1 | h1
  · rw [h1]; exact ⟨by decide, by decide⟩
  · constructor <;> (intro he; rw [he] at h1; exact absurd h1 (by decide))
  · constructor <;> (intro he; rw [he] at h1; exact absurd h1 (by decide))

theorem splitAtCh_of_not_mem {c : Char} : ∀ {cs : List Char},
    (∀ x ∈ cs, x ≠ c) → splitAtCh c cs = (cs, none) := by
  intro cs
  induction cs with
  | nil => intro _; rfl
  | cons x xs ih =>
    intro h
    unfold splitAtCh
    rw [if_neg (h x (List.mem_cons_self x xs))]
    rw [ih (fun y hy => h y (List.mem_cons_of_mem x hy))]

theorem unescape_cons_ne {x : Char} (hx : x ≠ '%') (cs : List Char) :
    unescapeChars (x :: cs) = (unescapeChars cs).map (fun t => x :: t) := by
  rw [unescapeChars.eq_def]
  dsimp only
  rw [if_neg hx]

/-- Prepending percent-free text commutes with unescaping. -/
theorem unescape_append_nopct : ∀ (l cs : List Char), (∀ x ∈ l, x ≠ '%') →
    unescapeChars (l ++ cs) = (unescapeChars cs).map (fun t => l ++ t) := by
  intro l
  induction l with
  | nil =>
    intro cs _
    simp
  | cons x xs ih =>
    intro cs h
    rw [List.cons_append, unescape_cons_ne (h x (List.mem_cons_self x xs))]
    rw [ih cs (fun y hy => h y (List.mem_cons_of_mem x hy))]
    cases unescapeChars cs <;> simp

/-- `String()` emits verbatim any raw path text that is valid as-is. -/
theorem escapedSeg_of_validEncoded {raw : List Char}
    (hv : validEncoded false raw = true) (hu : (unescapeChars raw).isSome = true) :
    escapedSeg false raw = some raw := by
  unfold escapedSeg
  rcases hou : unescapeChars raw with _ | u
  · rw [hou] at hu; simp at hu
  · simp only [Option.map]
    by_cases he : escapeChars false u = raw
    · rw [if_pos he]
    · rw [if_neg he, if_pos hv]

/-- Members of the validly-encoded character class, by evaluation. -/
theorem validEncoded_mem_ne {frag : Bool} {cs : List Char} {c : Char}
    (h : validEncoded frag cs = true) (hc : validEncodedCh frag c = false) :
    ∀ x ∈ cs, x ≠ c := by
  intro x hx he
  unfold validEncoded at h
  rw [List.all_eq_true] at h
  have := h x hx
  rw [he, hc] at this
  cases this

theorem escapedSeg_isSome {frag : Bool} {raw : List Char}
    (hu : (unescapeChars raw).isSome = true) :
    (escapedSeg frag raw).isSome = true := by
  unfold escapedSeg
  rcases hou : unescapeChars raw with _ | u
  · rw [hou] at hu; cases hu
  · rfl

theorem any_ctl_false {cs : List Char} (h : ∀ x ∈ cs, isCtl x = false) :
    cs.any isCtl = false := by
  by_cases hany : cs.any isCtl = true
  · rcases List.any_eq_true.mp hany with ⟨x, hx, hcx⟩
    rw [h x hx] at hcx
    cases hcx
  · simpa using hany

theorem urlParseOk_of_parts {p : String} {r : List Char} (hr : p.toList = '/' :: r)
    (hctl : p.toList.any isCtl = false)
    (hhash : ∀ x ∈ p.toList, x ≠ '#') (hq : ∀ x ∈ p.toList, x ≠ '?')
    (hun : (unescapeChars p.toList).isSome = true) :
    urlParseOk p = true := by
  unfold urlParseOk
  dsimp only
  rw [splitAtCh_of_not_mem hhash]
  dsimp only
  rw [splitAtCh_of_not_mem hq]
  dsimp only
  rw [hctl, hun, hr]
  rfl

/-- No character of the base path is `%`, `#` or `?`. -/
theorem basePath_chars : ∀ x ∈ basePath, x ≠ '%' ∧ x ≠ '#' ∧ x ≠ '?' := by
  decide

/-- Under the same side conditions, the resolved URL is the plain string
concatenation of the base endpoint and the path. -/
theorem resolveURL_concat {p : String}
    (hctl : p.toList.any isCtl = false)
    (hhash : ∀ x ∈ p.toList, x ≠ '#') (hq : ∀ x ∈ p.toList, x ≠ '?')
    (hve : validEncoded false p.toList = true)
    (hun : (unescapeChars p.toList).isSome = true) :
    resolveURL p = some (BASE_URL ++ p) := by
  have hbase_hash : ∀ x ∈ basePath ++ p.toList, x ≠ '#' := by
    intro x hx
    rcases List.mem_append.mp hx with h | h
    · exact (basePath_chars x h).2.1
    · exact hhash x h
  have hbase_q : ∀ x ∈ basePath ++ p.toList, x ≠ '?' := by
    intro x hx
    rcases List.mem_append.mp hx with h | h
    · exact (basePath_chars x h).2.2
    · exact hq x h
  have hve2 : validEncoded false (basePath ++ p.toList) = true := by
    unfold validEncoded at hve ⊢
    rw [List.all_append, hve]
    rw [show basePath.all (validEncodedCh false) = true from by decide]
    rfl
  have hun2 : (unescapeChars (basePath ++ p.toList)).isSome = true := by
    rw [unescape_append_nopct basePath p.toList (fun x hx => (basePath_chars x hx).1)]
    rcases hou : unescapeChars p.toList with _ | u
    · rw [hou] at hun; cases hun
    · rfl
  unfold resolveURL
  rw [hctl]
  dsimp only
  rw [splitAtCh_of_not_mem hbase_hash]
  dsimp only
  rw [splitAtCh_of_not_mem hbase_q]
  dsimp only
  rw [escapedSeg_of_validEncoded hve2 hun2]
  dsimp only
  rw [List.append_nil]
  have h1 : baseSchemeHost ++ (basePath ++ p.toList) =
      BASE_URL.toList ++ p.toList := by
    rw [← List.append_assoc]
    rw [show baseSchemeHost ++ basePath = BASE_URL.toList from by decide]
  rw [h1]
  cases p
  rfl

/-- C2: for every valid method and canonical rooted path, `NewRequest`
produces exactly the request the spec describes: its URL is the plain
string concatenation `BASE_URL ++ path` (no RFC 3986 reference
resolution), with the given method and body and the fixed header. -/
theorem C2_url_is_concatenation (method p : String) (body : Option Json)
    (hm : validMethod method = true) (hp : canonicalPath p = true) :
    Client.NewRequest method p body = .ok (specConcatRequest method p body) := by
  unfold canonicalPath at hp
  rw [Bool.and_eq_true, Bool.and_eq_true, Bool.and_eq_true] at hp
  obtain ⟨⟨⟨hroot, hctlall⟩, hve⟩, hun⟩ := hp
  obtain ⟨r, hr⟩ : ∃ r, p.toList = '/' :: r := by
    rcases hpt : p.toList with _ | ⟨c, rest⟩
    · rw [hpt] at hroot; cases hroot
    · rw [hpt] at hroot
      split at hroot
      · next heq =>
        injection heq with h1 h2
        exact ⟨rest, by rw [h1]⟩
      · cases hroot
  have hctl : p.toList.any isCtl = false := by
    apply any_ctl_false
    intro x hx
    have := List.all_eq_true.mp hctlall x hx
    simpa using this
  have hhash : ∀ x ∈ p.toList, x ≠ '#' := validEncoded_mem_ne hve (by decide)
  have hq : ∀ x ∈ p.toList, x ≠ '?' := validEncoded_mem_ne hve (by decide)
  have hparse := urlParseOk_of_parts hr hctl hhash hq hun
  have hres := resolveURL_concat hctl hhash hq hve hun
  unfold Client.NewRequest
  rw [hparse, hres, hm]
  rfl

theorem C2_url_is_concatenation_witness :
    validMethod "GET" = true ∧ canonicalPath "/Profile" = true ∧
    Client.NewRequest "GET" "/Profile" none =
      .ok (specConcatRequest "GET" "/Profile" none) ∧
    (specConcatRequest "GET" "/Profile" none).URL =
      "https://api.microsofthealth.net/v1/me/Profile" :=
  ⟨by decide, by decide,
    C2_url_is_concatenation "GET" "/Profile" none (by decide) (by decide),
    by decide⟩

/-- C5 (amended, surviving direction): a syntactically well-formed
rooted path component never triggers `NewRequest`'s validation error —
a request is produced. -/
theorem C5_wellformed_path_accepted (p : String) (h : WellFormedPath p = true) :
    isOkE (Client.NewRequest "GET" p none) = true := by
  unfold WellFormedPath at h
  rw [Bool.and_eq_true] at h
  obtain ⟨hroot, hwfe⟩ := h
  obtain ⟨r, hr⟩ : ∃ r, p.toList = '/' :: r := by
    rcases hpt : p.toList with _ | ⟨c, rest⟩
    · rw [hpt] at hroot; cases hroot
    · rw [hpt] at hroot
      split at hroot
      · cases hroot
      · next heq =>
        injection heq with h1 h2
        exact ⟨rest, by rw [h1]⟩
      · cases hroot
  have hctl : p.toList.any isCtl = false := any_ctl_false (wfe_no_ctl hwfe)
  have hhash : ∀ x ∈ p.toList, x ≠ '#' := fun x hx => (wfe_no_hash_query hwfe x hx).1
  have hq : ∀ x ∈ p.toList, x ≠ '?' := fun x hx => (wfe_no_hash_query hwfe x hx).2
  have hun : (unescapeChars p.toList).isSome = true := wfe_unescape_isSome _ hwfe
  have hparse := urlParseOk_of_parts hr hctl hhash hq hun
  have hbase_hash : ∀ x ∈ basePath ++ p.toList, x ≠ '#' := by
    intro x hx
    rcases List.mem_append.mp hx with hxx | hxx
    · exact (basePath_chars x hxx).2.1
    · exact hhash x hxx
  have hbase_q : ∀ x ∈ basePath ++ p.toList, x ≠ '?' := by
    intro x hx
    rcases List.mem_append.mp hx with hxx | hxx
    · exact (basePath_chars x hxx).2.2
    · exact hq x hxx
  have hun2 : (unescapeChars (basePath ++ p.toList)).isSome = true := by
    rw [unescape_append_nopct basePath p.toList (fun x hx => (basePath_chars x hx).1)]
    rcases hou : unescapeChars p.toList with _ | u
    · rw [hou] at hun; cases hun
    · rfl
  have hres : (resolveURL p).isSome = true := by
    unfold resolveURL
    rw [hctl]
    dsimp only
    rw [splitAtCh_of_not_mem hbase_hash]
    dsimp only
    rw [splitAtCh_of_not_mem hbase_q]
    dsimp only
    rcases hes : escapedSeg false (basePath ++ p.toList) with _ | ep
    · have h2 := @escapedSeg_isSome false _ hun2
      rw [hes] at h2
      cases h2
    · rfl
  unfold Client.NewRequest
  rw [hparse]
  rcases hres2 : resolveURL p with _ | resolved
  · rw [hres2] at hres; cases hres
  · rfl

/-! ### Recovering the status code from the error message (C6). -/

theorem natDigitsAux_eq : ∀ fuel n, n ≤ fuel →
    natDigitsAux fuel n = (Nat.digits 10 n).map Nat.digitChar := by
  intro fuel
  induction fuel with
  | zero =>
    intro n hn
    interval_cases n
    simp [natDigitsAux]
  | succ f ih =>
    intro n hn
    cases n with
    | zero => simp [natDigitsAux]
    | succ m =>
      rw [natDigitsAux]
      rw [Nat.digits_def' (by norm_num : 1 < 10) (Nat.succ_pos m), List.map_cons]
      have hdiv : (m + 1) / 10 < m + 1 := Nat.div_lt_self (Nat.succ_pos m) (by norm_num)
      rw [ih ((m + 1) / 10) (by omega)]

theorem digitChar_isDigit {d : Nat} (h : d < 10) :
    isDigitCh (Nat.digitChar d) = true := by
  interval_cases d <;> decide

theorem digitChar_val {d : Nat} (h : d < 10) :
    (Nat.digitChar d).toNat - '0'.toNat = d := by
  interval_cases d <;> decide

theorem natDecimal_digits (n : Nat) : ∀ x ∈ natDecimal n, isDigitCh x = true := by
  intro x hx
  unfold natDecimal at hx
  by_cases h0 : n = 0
  · rw [if_pos h0] at hx
    simp only [List.mem_singleton] at hx
    rw [hx]
    decide
  · rw [if_neg h0, natDigitsAux_eq n n le_rfl, List.mem_reverse] at hx
    rcases List.mem_map.mp hx with ⟨d, hd, rfl⟩
    exact digitChar_isDigit (Nat.digits_lt_base (by norm_num) hd)

theorem takeWhile_digits_append {l : List Char} (hl : ∀ x ∈ l, isDigitCh x = true) :
    (l ++ [Char.ofNat 125]).takeWhile isDigitCh = l := by
  induction l with
  | nil => rfl
  | cons x xs ih =>
    rw [List.cons_append, List.takeWhile_cons]
    rw [hl x (List.mem_cons_self x xs)]
    rw [ih (fun y hy => hl y (List.mem_cons_of_mem x hy))]
    rfl

theorem foldl_map_digitChar (l : List Nat) (hl : ∀ d ∈ l, d < 10) : ∀ a : Nat,
    (l.map Nat.digitChar).foldl (fun acc c => 10 * acc + (c.toNat - '0'.toNat)) a =
      l.foldl (fun acc d => 10 * acc + d) a := by
  induction l with
  | nil => intro a; rfl
  | cons d t ih =>
    intro a
    rw [List.map_cons, List.foldl_cons, List.foldl_cons]
    rw [digitChar_val (hl d (List.mem_cons_self d t))]
    exact ih (fun x hx => hl x (List.mem_cons_of_mem d hx)) _

theorem foldl_reverse_ofDigits (l : List Nat) :
    l.reverse.foldl (fun a d => 10 * a + d) 0 = Nat.ofDigits 10 l := by
  induction l with
  | nil => rfl
  | cons d t ih =>
    rw [List.reverse_cons, List.foldl_append, ih, Nat.ofDigits_cons,
      List.foldl_cons, List.foldl_nil]
    omega

theorem readLeadingNat_natDecimal (n : Nat) :
    readLeadingNat (natDecimal n ++ [Char.ofNat 125]) = some n := by
  have ht := takeWhile_digits_append (natDecimal_digits n)
  by_cases h0 : n = 0
  · rw [h0]; decide
  · have hd : natDecimal n = (Nat.digits 10 n).reverse.map Nat.digitChar := by
      unfold natDecimal
      rw [if_neg h0, natDigitsAux_eq n n le_rfl, List.map_reverse]
    have hne : (natDecimal n).isEmpty = false := by
      rw [hd]
      rcases hds : Nat.digits 10 n with _ | ⟨d, ds⟩
      · exact absurd hds ((@Nat.digits_ne_nil_iff_ne_zero 10 n).mpr h0)
      · simp
    simp only [readLeadingNat, ht, hne, Bool.false_eq_true, if_false]
    rw [hd, foldl_map_digitChar _ (fun d hd2 =>
      Nat.digits_lt_base (by norm_num) (List.mem_reverse.mp hd2)) 0]
    rw [foldl_reverse_ofDigits, Nat.ofDigits_digits]

theorem isPrefixOf_self_append : ∀ (l t : List Char), l.isPrefixOf (l ++ t) = true := by
  intro l
  induction l with
  | nil => intro t; simp [List.isPrefixOf]
  | cons x xs ih =>
    intro t
    simp [List.isPrefixOf, ih]

theorem afterMarker_found (c : Char) (mt rest : List Char) :
    afterMarker (c :: mt) ((c :: mt) ++ rest) = some rest := by
  have hcond : (c :: mt).isPrefixOf (c :: (mt ++ rest)) = true := by
    rw [← List.cons_append]
    exact isPrefixOf_self_append _ _
  rw [List.cons_append, afterMarker.eq_def]
  dsimp only
  rw [hcond, if_pos rfl, ← List.cons_append, List.drop_left]

theorem afterMarker_skip {m1 : Char} {mrest : List Char} {l : List Char}
    (cs : List Char) (hl : ∀ x ∈ l, x ≠ m1) :
    afterMarker (m1 :: mrest) (l ++ cs) = afterMarker (m1 :: mrest) cs := by
  induction l with
  | nil => rfl
  | cons x xs ih =>
    have hx : (m1 == x) = false :=
      beq_eq_false_iff_ne.mpr (Ne.symm (hl x (List.mem_cons_self x xs)))
    have hcond : (m1 :: mrest).isPrefixOf (x :: (xs ++ cs)) = false := by
      simp [List.isPrefixOf, hx]
    rw [List.cons_append, afterMarker.eq_def]
    dsimp only
    rw [hcond, if_neg Bool.false_ne_true]
    exact ih (fun y hy => hl y (List.mem_cons_of_mem x hy))

/-- The status code is recoverable from `Do`'s HTTP-failure message. -/
theorem extract_status (r : Response) :
    extractStatusCode (httpFailMessage r) = some r.StatusCode := by
  have hd : ∀ s1 s2 : String, (s1 ++ s2).toList = s1.toList ++ s2.toList := by
    intro s1 s2
    cases s1
    cases s2
    rfl
  have hAB : ∀ X : List Char,
      "http request failed, resp: ".toList ++
          ("&http.Response\x7bStatusCode:".toList ++ X) =
        "http request failed, resp: &http.Response\x7bStatusCode:".toList ++ X := by
    intro X
    rw [← List.append_assoc]
    congr 1
  have hlist : (httpFailMessage r).toList =
      "http request failed, resp: &http.Response\x7bStatusCode:".toList ++
        (natDecimal r.StatusCode ++ [Char.ofNat 125]) := by
    unfold httpFailMessage responseRepr
    rw [hd, hd, hd]
    simp only [List.append_assoc]
    rw [show ("\x7d" : String).toList = [Char.ofNat 125] from by decide]
    exact hAB _
  unfold extractStatusCode
  rw [hlist]
  rw [show "http request failed, resp: &http.Response\x7bStatusCode:".toList =
    "http request failed, resp: &http.Response\x7b".toList ++
      "StatusCode:".toList from by decide]
  rw [List.append_assoc]
  rw [show "StatusCode:".toList = 'S' :: "tatusCode:".toList from rfl]
  rw [afterMarker_skip _ (by decide)]
  rw [afterMarker_found]
  exact readLeadingNat_natDecimal r.StatusCode

/-- C6: on a status outside 200–299, `Do`'s error carries the formatted
response dump (including the status), and the status code is
recoverable from the error message, so a caller can branch on it. -/
theorem C6_error_carries_status {α : Type} (t : Request → Except String Response)
    (req : Request) (dest : α) (dec : Option (Json → α → DecRes α))
    (resp : Response) (ht : t req = .ok resp)
    (hs : 299 < resp.StatusCode ∨ resp.StatusCode < 200) :
    (Client.Do t req dest dec).err =
      some (.httpStatus (httpFailMessage resp)) ∧
    extractStatusCode (httpFailMessage resp) = some resp.StatusCode := by
  constructor
  · unfold Client.Do
    rw [ht]
    have hcond : (decide (resp.StatusCode > 299) || decide (resp.StatusCode < 200)) = true := by
      rcases hs with h | h <;> simp [h]
    simp [hcond]
  · exact extract_status resp

theorem C6_error_carries_status_witness :
    constTransport resp404 profileRequest = .ok resp404 ∧
    (299 < resp404.StatusCode ∨ resp404.StatusCode < 200) ∧
    ((Client.Do (constTransport resp404) profileRequest Profile.zero
          (some decodeProfileInto)).err =
        some (.httpStatus (httpFailMessage resp404)) ∧
      extractStatusCode (httpFailMessage resp404) = some resp404.StatusCode) :=
  ⟨rfl, Or.inl (by decide),
    C6_error_carries_status (constTransport resp404) profileRequest Profile.zero
      (some decodeProfileInto) resp404 rfl (Or.inl (by decide))⟩

theorem C5_wellformed_path_accepted_witness :
    WellFormedPath "/Profile" = true ∧
    isOkE (Client.NewRequest "GET" "/Profile" none) = true :=
  ⟨by decide, C5_wellformed_path_accepted "/Profile" (by decide)⟩

/-- C5 (counterexample): the path `"/a b"` is not a well-formed URI
component (a raw space is not a path character), yet `NewRequest` does
not fail — `url.Parse` accepts raw spaces, so the claimed
"every ill-formed path is rejected" direction is false. -/
theorem C5_illformed_path_not_rejected :
    WellFormedPath "/a b" = false ∧
    isOkE (Client.NewRequest "GET" "/a b" none) = true := by
  decide

/-! ### The conflicting `totalRestlessSleepDuration` tag (C7, C10). -/

/-- Folding a field decode whose update does not touch the observed
projection leaves that projection unchanged. -/
theorem applyField_fst_keep (acc : α) (e : Option String) (upd : β → α)
    (d : FieldDec β) (f : α → γ) (hupd : ∀ b, f (upd b) = f acc) :
    f ((applyField acc e upd d).1) = f acc := by
  cases d <;> simp [applyField, hupd]

theorem applySub_fst_keep (acc : α) (e : Option String) (upd : γ → α)
    (r : DecRes γ) (f : α → δ) (hupd : ∀ g, f (upd g) = f acc) :
    f ((applySub e upd r).1) = f acc := by
  simp [applySub, hupd]

theorem applyList_fst_keep (acc : α) (e : Option String) (upd : List γ → α)
    (decInto : Json → γ → DecRes γ) (zero : γ) (v : Json) (f : α → δ)
    (hupd : ∀ l, f (upd l) = f acc) :
    f ((applyList acc e upd decInto zero v).1) = f acc := by
  cases v <;> simp [applyList, hupd]

/-- No branch of the (conflict-resolved) tag table writes either of the
two sleep-duration fields. -/
theorem dataStep_keeps_restful (k : String) (v : Json) (acc : ActivityData)
    (e : Option String) :
    ((decodeActivityDataStep k v acc e).1).TotalRestfulSleepDuration =
      acc.TotalRestfulSleepDuration := by
  unfold decodeActivityDataStep
  by_cases h0 : k = "awakeDuration"
  · rw [if_pos h0]
    exact applyField_fst_keep acc e _ _ (fun a => a.TotalRestfulSleepDuration) (fun b => rfl)
  rw [if_neg h0]
  by_cases h1 : k = "sleepDuration"
  · rw [if_pos h1]
    exact applyField_fst_keep acc e _ _ (fun a => a.TotalRestfulSleepDuration) (fun b => rfl)
  rw [if_neg h1]
  by_cases h2 : k = "numberOfWakeups"
  · rw [if_pos h2]
    exact applyField_fst_keep acc e _ _ (fun a => a.TotalRestfulSleepDuration) (fun b => rfl)
  rw [if_neg h2]
  by_cases h3 : k = "fallAsleepDuration"
  · rw [if_pos h3]
    exact applyField_fst_keep acc e _ _ (fun a => a.TotalRestfulSleepDuration) (fun b => rfl)
  rw [if_neg h3]
  by_cases h4 : k = "sleepEfficiencyPercentage"
  · rw [if_pos h4]
    exact applyField_fst_keep acc e _ _ (fun a => a.TotalRestfulSleepDuration) (fun b => rfl)
  rw [if_neg h4]
  by_cases h5 : k = "restingHeartRate"
  · rw [if_pos h5]
    exact applyField_fst_keep acc e _ _ (fun a => a.TotalRestfulSleepDuration) (fun b => rfl)
  rw [if_neg h5]
  by_cases h6 : k = "fallAsleepTime"
  · rw [if_pos h6]
    exact applyField_fst_keep acc e _ _ (fun a => a.TotalRestfulSleepDuration) (fun b => rfl)
  rw [if_neg h6]
  by_cases h7 : k = "wakeupTime"
  · rw [if_pos h7]
    exact applyField_fst_keep acc e _ _ (fun a => a.TotalRestfulSleepDuration) (fun b => rfl)
  rw [if_neg h7]
  by_cases h8 : k = "roundsPerformed"
  · rw [if_pos h8]
    exact applyField_fst_keep acc e _ _ (fun a => a.TotalRestfulSleepDuration) (fun b => rfl)
  rw [if_neg h8]
  by_cases h9 : k = "repetitionsPerformed"
  · rw [if_pos h9]
    exact applyField_fst_keep acc e _ _ (fun a => a.TotalRestfulSleepDuration) (fun b => rfl)
  rw [if_neg h9]
  by_cases h10 : k = "workoutPlanId"
  · rw [if_pos h10]
    exact applyField_fst_keep acc e _ _ (fun a => a.TotalRestfulSleepDuration) (fun b => rfl)
  rw [if_neg h10]
  by_cases h11 : k = "performanceSummary"
  · rw [if_pos h11]
    exact applySub_fst_keep acc e _ _ (fun a => a.TotalRestfulSleepDuration) (fun g => rfl)
  rw [if_neg h11]
  by_cases h12 : k = "activityType"
  · rw [if_pos h12]
    exact applyField_fst_keep acc e _ _ (fun a => a.TotalRestfulSleepDuration) (fun b => rfl)
  rw [if_neg h12]
  by_cases h13 : k = "activitySegments"
  · rw [if_pos h13]
    exact applyList_fst_keep acc e _ _ _ v (fun a => a.TotalRestfulSleepDuration) (fun l => rfl)
  rw [if_neg h13]
  by_cases h14 : k = "id"
  · rw [if_pos h14]
    exact applyField_fst_keep acc e _ _ (fun a => a.TotalRestfulSleepDuration) (fun b => rfl)
  rw [if_neg h14]
  by_cases h15 : k = "userId"
  · rw [if_pos h15]
    exact applyField_fst_keep acc e _ _ (fun a => a.TotalRestfulSleepDuration) (fun b => rfl)
  rw [if_neg h15]
  by_cases h16 : k = "deviceId"
  · rw [if_pos h16]
    exact applyField_fst_keep acc e _ _ (fun a => a.TotalRestfulSleepDuration) (fun b => rfl)
  rw [if_neg h16]
  by_cases h17 : k = "startTime"
  · rw [if_pos h17]
    exact applyField_fst_keep acc e _ _ (fun a => a.TotalRestfulSleepDuration) (fun b => rfl)
  rw [if_neg h17]
  by_cases h18 : k = "endTime"
  · rw [if_pos h18]
    exact applyField_fst_keep acc e _ _ (fun a => a.TotalRestfulSleepDuration) (fun b => rfl)
  rw [if_neg h18]
  by_cases h19 : k = "dayId"
  · rw [if_pos h19]
    exact applyField_fst_keep acc e _ _ (fun a => a.TotalRestfulSleepDuration) (fun b => rfl)
  rw [if_neg h19]
  by_cases h20 : k = "createdTime"
  · rw [if_pos h20]
    exact applyField_fst_keep acc e _ _ (fun a => a.TotalRestfulSleepDuration) (fun b => rfl)
  rw [if_neg h20]
  by_cases h21 : k = "createdBy"
  · rw [if_pos h21]
    exact applyField_fst_keep acc e _ _ (fun a => a.TotalRestfulSleepDuration) (fun b => rfl)
  rw [if_neg h21]
  by_cases h22 : k = "name"
  · rw [if_pos h22]
    exact applyField_fst_keep acc e _ _ (fun a => a.TotalRestfulSleepDuration) (fun b => rfl)
  rw [if_neg h22]
  by_cases h23 : k = "duration"
  · rw [if_pos h23]
    exact applyField_fst_keep acc e _ _ (fun a => a.TotalRestfulSleepDuration) (fun b => rfl)
  rw [if_neg h23]
  by_cases h24 : k = "minuteSummaries"
  · rw [if_pos h24]
    exact applyList_fst_keep acc e _ _ _ v (fun a => a.TotalRestfulSleepDuration) (fun l => rfl)
  rw [if_neg h24]
  by_cases h25 : k = "heartRateSummary"
  · rw [if_pos h25]
    exact applySub_fst_keep acc e _ _ (fun a => a.TotalRestfulSleepDuration) (fun g => rfl)
  rw [if_neg h25]
  by_cases h26 : k = "caloriesBurnedSummary"
  · rw [if_pos h26]
    exact applySub_fst_keep acc e _ _ (fun a => a.TotalRestfulSleepDuration) (fun g => rfl)
  rw [if_neg h26]
  by_cases h27 : k = "uvExposure"
  · rw [if_pos h27]
    exact applyField_fst_keep acc e _ _ (fun a => a.TotalRestfulSleepDuration) (fun b => rfl)
  rw [if_neg h27]
  by_cases h28 : k = "distanceSummary"
  · rw [if_pos h28]
    exact applySub_fst_keep acc e _ _ (fun a => a.TotalRestfulSleepDuration) (fun g => rfl)
  rw [if_neg h28]
  by_cases h29 : k = "pausedDuration"
  · rw [if_pos h29]
    exact applyField_fst_keep acc e _ _ (fun a => a.TotalRestfulSleepDuration) (fun b => rfl)
  rw [if_neg h29]
  by_cases h30 : k = "splitDistance"
  · rw [if_pos h30]
    exact applyField_fst_keep acc e _ _ (fun a => a.TotalRestfulSleepDuration) (fun b => rfl)
  rw [if_neg h30]
  by_cases h31 : k = "mapPoints"
  · rw [if_pos h31]
    exact applyList_fst_keep acc e _ _ _ v (fun a => a.TotalRestfulSleepDuration) (fun l => rfl)
  rw [if_neg h31]
  by_cases h32 : k = "totalStepCount"
  · rw [if_pos h32]
    exact applyField_fst_keep acc e _ _ (fun a => a.TotalRestfulSleepDuration) (fun b => rfl)
  rw [if_neg h32]
  by_cases h33 : k = "totalDistanceWalked"
  · rw [if_pos h33]
    exact applyField_fst_keep acc e _ _ (fun a => a.TotalRestfulSleepDuration) (fun b => rfl)
  rw [if_neg h33]
  by_cases h34 : k = "parOrBetterCount"
  · rw [if_pos h34]
    exact applyField_fst_keep acc e _ _ (fun a => a.TotalRestfulSleepDuration) (fun b => rfl)
  rw [if_neg h34]
  by_cases h35 : k = "longestDriveDistance"
  · rw [if_pos h35]
    exact applyField_fst_keep acc e _ _ (fun a => a.TotalRestfulSleepDuration) (fun b => rfl)
  rw [if_neg h35]
  by_cases h36 : k = "longestStrokeDistance"
  · rw [if_pos h36]
    exact applyField_fst_keep acc e _ _ (fun a => a.TotalRestfulSleepDuration) (fun b => rfl)
  rw [if_neg h36]

theorem dataStep_keeps_restless (k : String) (v : Json) (acc : ActivityData)
    (e : Option String) :
    ((decodeActivityDataStep k v acc e).1).TotalRestlessSleepDuration =
      acc.TotalRestlessSleepDuration := by
  unfold decodeActivityDataStep
  by_cases h0 : k = "awakeDuration"
  · rw [if_pos h0]
    exact applyField_fst_keep acc e _ _ (fun a => a.TotalRestlessSleepDuration) (fun b => rfl)
  rw [if_neg h0]
  by_cases h1 : k = "sleepDuration"
  · rw [if_pos h1]
    exact applyField_fst_keep acc e _ _ (fun a => a.TotalRestlessSleepDuration) (fun b => rfl)
  rw [if_neg h1]
  by_cases h2 : k = "numberOfWakeups"
  · rw [if_pos h2]
    exact applyField_fst_keep acc e _ _ (fun a => a.TotalRestlessSleepDuration) (fun b => rfl)
  rw [if_neg h2]
  by_cases h3 : k = "fallAsleepDuration"
  · rw [if_pos h3]
    exact applyField_fst_keep acc e _ _ (fun a => a.TotalRestlessSleepDuration) (fun b => rfl)
  rw [if_neg h3]
  by_cases h4 : k = "sleepEfficiencyPercentage"
  · rw [if_pos h4]
    exact applyField_fst_keep acc e _ _ (fun a => a.TotalRestlessSleepDuration) (fun b => rfl)
  rw [if_neg h4]
  by_cases h5 : k = "restingHeartRate"
  · rw [if_pos h5]
    exact applyField_fst_keep acc e _ _ (fun a => a.TotalRestlessSleepDuration) (fun b => rfl)
  rw [if_neg h5]
  by_cases h6 : k = "fallAsleepTime"
  · rw [if_pos h6]
    exact applyField_fst_keep acc e _ _ (fun a => a.TotalRestlessSleepDuration) (fun b => rfl)
  rw [if_neg h6]
  by_cases h7 : k = "wakeupTime"
  · rw [if_pos h7]
    exact applyField_fst_keep acc e _ _ (fun a => a.TotalRestlessSleepDuration) (fun b => rfl)
  rw [if_neg h7]
  by_cases h8 : k = "roundsPerformed"
  · rw [if_pos h8]
    exact applyField_fst_keep acc e _ _ (fun a => a.TotalRestlessSleepDuration) (fun b => rfl)
  rw [if_neg h8]
  by_cases h9 : k = "repetitionsPerformed"
  · rw [if_pos h9]
    exact applyField_fst_keep acc e _ _ (fun a => a.TotalRestlessSleepDuration) (fun b => rfl)
  rw [if_neg h9]
  by_cases h10 : k = "workoutPlanId"
  · rw [if_pos h10]
    exact applyField_fst_keep acc e _ _ (fun a => a.TotalRestlessSleepDuration) (fun b => rfl)
  rw [if_neg h10]
  by_cases h11 : k = "performanceSummary"
  · rw [if_pos h11]
    exact applySub_fst_keep acc e _ _ (fun a => a.TotalRestlessSleepDuration) (fun g => rfl)
  rw [if_neg h11]
  by_cases h12 : k = "activityType"
  · rw [if_pos h12]
    exact applyField_fst_keep acc e _ _ (fun a => a.TotalRestlessSleepDuration) (fun b => rfl)
  rw [if_neg h12]
  by_cases h13 : k = "activitySegments"
  · rw [if_pos h13]
    exact applyList_fst_keep acc e _ _ _ v (fun a => a.TotalRestlessSleepDuration) (fun l => rfl)
  rw [if_neg h13]
  by_cases h14 : k = "id"
  · rw [if_pos h14]
    exact applyField_fst_keep acc e _ _ (fun a => a.TotalRestlessSleepDuration) (fun b => rfl)
  rw [if_neg h14]
  by_cases h15 : k = "userId"
  · rw [if_pos h15]
    exact applyField_fst_keep acc e _ _ (fun a => a.TotalRestlessSleepDuration) (fun b => rfl)
  rw [if_neg h15]
  by_cases h16 : k = "deviceId"
  · rw [if_pos h16]
    exact applyField_fst_keep acc e _ _ (fun a => a.TotalRestlessSleepDuration) (fun b => rfl)
  rw [if_neg h16]
  by_cases h17 : k = "startTime"
  · rw [if_pos h17]
    exact applyField_fst_keep acc e _ _ (fun a => a.TotalRestlessSleepDuration) (fun b => rfl)
  rw [if_neg h17]
  by_cases h18 : k = "endTime"
  · rw [if_pos h18]
    exact applyField_fst_keep acc e _ _ (fun a => a.TotalRestlessSleepDuration) (fun b => rfl)
  rw [if_neg h18]
  by_cases h19 : k = "dayId"
  · rw [if_pos h19]
    exact applyField_fst_keep acc e _ _ (fun a => a.TotalRestlessSleepDuration) (fun b => rfl)
  rw [if_neg h19]
  by_cases h20 : k = "createdTime"
  · rw [if_pos h20]
    exact applyField_fst_keep acc e _ _ (fun a => a.TotalRestlessSleepDuration) (fun b => rfl)
  rw [if_neg h20]
  by_cases h21 : k = "createdBy"
  · rw [if_pos h21]
    exact applyField_fst_keep acc e _ _ (fun a => a.TotalRestlessSleepDuration) (fun b => rfl)
  rw [if_neg h21]
  by_cases h22 : k = "name"
  · rw [if_pos h22]
    exact applyField_fst_keep acc e _ _ (fun a => a.TotalRestlessSleepDuration) (fun b => rfl)
  rw [if_neg h22]
  by_cases h23 : k = "duration"
  · rw [if_pos h23]
    exact applyField_fst_keep acc e _ _ (fun a => a.TotalRestlessSleepDuration) (fun b => rfl)
  rw [if_neg h23]
  by_cases h24 : k = "minuteSummaries"
  · rw [if_pos h24]
    exact applyList_fst_keep acc e _ _ _ v (fun a => a.TotalRestlessSleepDuration) (fun l => rfl)
  rw [if_neg h24]
  by_cases h25 : k = "heartRateSummary"
  · rw [if_pos h25]
    exact applySub_fst_keep acc e _ _ (fun a => a.TotalRestlessSleepDuration) (fun g => rfl)
  rw [if_neg h25]
  by_cases h26 : k = "caloriesBurnedSummary"
  · rw [if_pos h26]
    exact applySub_fst_keep acc e _ _ (fun a => a.TotalRestlessSleepDuration) (fun g => rfl)
  rw [if_neg h26]
  by_cases h27 : k = "uvExposure"
  · rw [if_pos h27]
    exact applyField_fst_keep acc e _ _ (fun a => a.TotalRestlessSleepDuration) (fun b => rfl)
  rw [if_neg h27]
  by_cases h28 : k = "distanceSummary"
  · rw [if_pos h28]
    exact applySub_fst_keep acc e _ _ (fun a => a.TotalRestlessSleepDuration) (fun g => rfl)
  rw [if_neg h28]
  by_cases h29 : k = "pausedDuration"
  · rw [if_pos h29]
    exact applyField_fst_keep acc e _ _ (fun a => a.TotalRestlessSleepDuration) (fun b => rfl)
  rw [if_neg h29]
  by_cases h30 : k = "splitDistance"
  · rw [if_pos h30]
    exact applyField_fst_keep acc e _ _ (fun a => a.TotalRestlessSleepDuration) (fun b => rfl)
  rw [if_neg h30]
  by_cases h31 : k = "mapPoints"
  · rw [if_pos h31]
    exact applyList_fst_keep acc e _ _ _ v (fun a => a.TotalRestlessSleepDuration) (fun l => rfl)
  rw [if_neg h31]
  by_cases h32 : k = "totalStepCount"
  · rw [if_pos h32]
    exact applyField_fst_keep acc e _ _ (fun a => a.TotalRestlessSleepDuration) (fun b => rfl)
  rw [if_neg h32]
  by_cases h33 : k = "totalDistanceWalked"
  · rw [if_pos h33]
    exact applyField_fst_keep acc e _ _ (fun a => a.TotalRestlessSleepDuration) (fun b => rfl)
  rw [if_neg h33]
  by_cases h34 : k = "parOrBetterCount"
  · rw [if_pos h34]
    exact applyField_fst_keep acc e _ _ (fun a => a.TotalRestlessSleepDuration) (fun b => rfl)
  rw [if_neg h34]
  by_cases h35 : k = "longestDriveDistance"
  · rw [if_pos h35]
    exact applyField_fst_keep acc e _ _ (fun a => a.TotalRestlessSleepDuration) (fun b => rfl)
  rw [if_neg h35]
  by_cases h36 : k = "longestStrokeDistance"
  · rw [if_pos h36]
    exact applyField_fst_keep acc e _ _ (fun a => a.TotalRestlessSleepDuration) (fun b => rfl)
  rw [if_neg h36]

theorem dataStep_keeps_sleep (k : String) (v : Json) (acc : ActivityData)
    (e : Option String) :
    ((decodeActivityDataStep k v acc e).1).TotalRestfulSleepDuration =
        acc.TotalRestfulSleepDuration ∧
      ((decodeActivityDataStep k v acc e).1).TotalRestlessSleepDuration =
        acc.TotalRestlessSleepDuration :=
  ⟨dataStep_keeps_restful k v acc e, dataStep_keeps_restless k v acc e⟩

theorem activityStep_keeps_sleep (k : String) (v : Json) (d : ActivityData)
    (kids : List Activity) (e : Option String) :
    ((decodeActivityStep k v d kids e).1).TotalRestfulSleepDuration =
        d.TotalRestfulSleepDuration ∧
      ((decodeActivityStep k v d kids e).1).TotalRestlessSleepDuration =
        d.TotalRestlessSleepDuration := by
  refine ⟨?_, ?_⟩
  · unfold decodeActivityStep
    split
    · repeat' split
      all_goals rfl
    · exact (dataStep_keeps_sleep k v d e).1
  · unfold decodeActivityStep
    split
    · repeat' split
      all_goals rfl
    · exact (dataStep_keeps_sleep k v d e).2

theorem activityFields_keep_sleep : ∀ (l : List (String × Json)) (d : ActivityData)
    (kids : List Activity) (e : Option String),
    ((decodeActivityFields l d kids e).1).TotalRestfulSleepDuration =
        d.TotalRestfulSleepDuration ∧
      ((decodeActivityFields l d kids e).1).TotalRestlessSleepDuration =
        d.TotalRestlessSleepDuration := by
  intro l
  induction l with
  | nil => intro d kids e; exact ⟨rfl, rfl⟩
  | cons kv rest ih =>
    intro d kids e
    obtain ⟨k, v⟩ := kv
    have hstep := activityStep_keeps_sleep k v d kids e
    rcases hs : decodeActivityStep k v d kids e with ⟨d2, kids2, e2⟩
    rw [hs] at hstep
    have hrec := ih d2 kids2 e2
    rw [decodeActivityFields]
    dsimp only
    rw [hs]
    dsimp only
    exact ⟨hrec.1.trans hstep.1, hrec.2.trans hstep.2⟩

/-- Decoding a JSON document into an `Activity` never writes either
field tagged `totalRestlessSleepDuration`: the duplicate tag drops both
from the effective field table. -/
theorem decode_activity_keeps_sleep (j : Json) (dest : Activity) :
    ((decodeActivityInto j dest).value).data.TotalRestfulSleepDuration =
        dest.data.TotalRestfulSleepDuration ∧
      ((decodeActivityInto j dest).value).data.TotalRestlessSleepDuration =
        dest.data.TotalRestlessSleepDuration := by
  cases j with
  | obj fields =>
    have hk := activityFields_keep_sleep fields dest.data dest.ChildActivities none
    rcases hf : decodeActivityFields fields dest.data dest.ChildActivities none
      with ⟨d2, kids2, e2⟩
    rw [hf] at hk
    rw [decodeActivityInto]
    dsimp only
    rw [hf]
    exact hk
  | null => exact ⟨rfl, rfl⟩
  | bool b => exact ⟨rfl, rfl⟩
  | num n => exact ⟨rfl, rfl⟩
  | str s => exact ⟨rfl, rfl⟩
  | arr xs => exact ⟨rfl, rfl⟩

/-- C10 (amended): because both Go fields carry the same JSON tag
`totalRestlessSleepDuration`, `encoding/json` drops both from the field
table: decoding any response body populates neither
`TotalRestfulSleepDuration` nor `TotalRestlessSleepDuration` — from any
key. -/
theorem C10_conflicting_tag_drops_both_fields (j : Json) :
    ((decodeActivityInto j Activity.zero).value).data.TotalRestfulSleepDuration = "" ∧
    ((decodeActivityInto j Activity.zero).value).data.TotalRestlessSleepDuration = "" :=
  decode_activity_keeps_sleep j Activity.zero

/-- C10 (counterexample): a body carrying both keys — including
`totalRestlessSleepDuration:"7h"` — fills neither field; in particular
`TotalRestfulSleepDuration` is NOT "filled from the
totalRestlessSleepDuration key" as the claim says: it stays empty. -/
theorem C10_restless_key_fills_nothing :
    ((decodeActivityInto
        (.obj [("totalRestfulSleepDuration", .str "8h"),
               ("totalRestlessSleepDuration", .str "7h")])
        Activity.zero).value).data.TotalRestfulSleepDuration = "" ∧
    ((decodeActivityInto
        (.obj [("totalRestfulSleepDuration", .str "8h"),
               ("totalRestlessSleepDuration", .str "7h")])
        Activity.zero).value).data.TotalRestlessSleepDuration = "" :=
  decode_activity_keeps_sleep _ Activity.zero

/-- A marshalled `*time.Time` decodes back to itself: the wire form of
a `Timestamp` is RFC 3339 by construction. -/
theorem decTimePtr_marshal (o : Option Timestamp) :
    decTimePtr (marshalTimePtr o) = .set o := by
  rcases o with _ | ⟨s, hs⟩
  · rfl
  · simp [marshalTimePtr, decTimePtr, hs]

/-- C7 (amended): for body types whose JSON tags are conflict-free, the
encode/decode round trip is the identity: a `Profile` body deserializes
back to a value equal to the original, with no error. -/
theorem C7_profile_round_trip (p : Profile) :
    decodeProfileInto (marshalProfile p) Profile.zero = ⟨p, none⟩ := by
  obtain ⟨f1, f2, f3, b, f4, f5, hh, w, f6, lu⟩ := p
  simp [marshalProfile, decodeProfileInto, decodeWith, foldFields,
    decodeProfileStep, applyField, decStr, decInt, decTimePtr_marshal,
    Profile.zero]

/-- C7 (counterexample): an `Activity` body does not round-trip: its
`TotalRestlessSleepDuration` value is lost, because the duplicated JSON
tag makes `encoding/json` drop the field from both the encoder and the
decoder. -/
theorem C7_activity_not_round_trip :
    activityRT.data.TotalRestlessSleepDuration = "5h" ∧
    ((decodeActivityInto (marshalActivity activityRT)
        Activity.zero).value).data.TotalRestlessSleepDuration = "" :=
  ⟨rfl, (decode_activity_keeps_sleep (marshalActivity activityRT) Activity.zero).2⟩

end MicrosoftBand
